import Mathlib

/-!
# xscraper: dashboard handlers and browser bot

A shallow embedding of `src/working-dashboard.js` (class `WorkingDashboard`) and of
`src/twitter-bot-2fa.js` (class `TwitterBot2FA`).

* JavaScript strings are Lean strings; `jsLength` is the `.length` of JavaScript
  (UTF-16 code units), `includes` is `String.prototype.includes`.
* A thrown `Error` is `Except.error message`.
* The objects the code drives but does not define (the bot seen from the dashboard, the
  Playwright page seen from the bot, `fetch`) are parameters: records of state-passing
  operations over an arbitrary state type, so every theorem holds for every behaviour of
  them.
* Every method returns its result together with the successor state; the state carries a
  trace of the calls made, which is how "is called" and "is never called" are stated.
-/

namespace XScraper

/-! ## JavaScript strings -/

/-- Number of UTF-16 code units of one code point. -/
def utf16Units (c : Char) : Nat :=
  if c.toNat < 65536 then 1 else 2

/-- The `.length` of a JavaScript string: its number of UTF-16 code units. -/
def jsLength (s : String) : Nat :=
  (s.toList.map utf16Units).sum

/-- The method `s.includes(needle)`. -/
def includes (s needle : String) : Bool :=
  s.toList.tails.any (fun t => needle.toList.isPrefixOf t)

/-- Truthiness of a value that is a string or `undefined`/`null` (`none`). -/
def truthy : Option String → Bool
  | none => false
  | some s => s != ""

/-! ## The dashboard (`working-dashboard.js`) -/

/-- A tweet as `bot.getMyTweets` returns it; an absent field is the empty string
(both are falsy). -/
structure Tweet where
  id : String
  text : String
  time : String
  url : String
  deriving DecidableEq, Repr

/-- A comment as `bot.getCommentsForTweet` returns it. -/
structure Comment where
  id : String
  author : String
  text : String
  timestamp : String
  deriving DecidableEq, Repr

/-- The value `bot.getMyTweets` resolves to: `none` is `null`/`undefined`. -/
abbrev TweetsValue := Option (List Tweet)

/-- The value `bot.getCommentsForTweet` resolves to. -/
inductive CommentsValue where
  | nullish
  | notArray
  | array (items : List Comment)
  deriving DecidableEq, Repr

/-- The bot object as the dashboard uses it, over its own state `β`. A method the
dashboard tests for before calling (`this.bot.getCommentsForTweet`,
`this.bot.replyToTweet`) may be absent. `replyToTweet` resolves to a value of which only
`result === true` is observed. -/
structure BotApi (β : Type) where
  getMyTweets : Nat → β → Except String TweetsValue × β
  getCommentsForTweet : Option (String → β → Except String CommentsValue × β)
  replyToTweet : Option (String → String → β → Except String Bool × β)

/-- Calls recorded in the trace. -/
inductive Call where
  | postReply (postUrl replyText : String)
  | getMyTweets (count : Nat)
  | getCommentsForTweet (tweetUrl : String)
  | replyToTweet (tweetUrl replyText : String)
  | fetch (url : String)
  deriving DecidableEq, Repr

/-- True of the calls that are methods of the bot. -/
def Call.isBotCall : Call → Bool
  | .getMyTweets _ => true
  | .getCommentsForTweet _ => true
  | .replyToTweet _ _ => true
  | _ => false

/-- True of the calls of the dashboard method `postReply`. -/
def Call.isPostReply : Call → Bool
  | .postReply _ _ => true
  | _ => false

/-- True of the calls of `bot.getCommentsForTweet`. -/
def Call.isGetComments : Call → Bool
  | .getCommentsForTweet _ => true
  | _ => false

/-- True of the calls of `fetch`. -/
def Call.isFetch : Call → Bool
  | .fetch _ => true
  | _ => false

structure Stats where
  likes : Nat
  retweets : Nat
  replies : Nat
  deriving DecidableEq, Repr

/-- An element of `formattedPosts` / `this.currentPosts`. -/
structure Post where
  id : String
  text : String
  time : String
  url : String
  stats : Stats
  deriving DecidableEq, Repr

structure Credentials where
  username : String
  password : String
  deriving DecidableEq, Repr

/-- The fields of a `WorkingDashboard` instance, with the state of its bot (`none` is
`this.bot = null`) and the trace of calls made so far. -/
structure Dashboard (β : Type) where
  bot : Option β
  isConnected : Bool
  credentials : Option Credentials
  currentPosts : List Post
  trace : List Call

/-- The state the constructor leaves. -/
def Dashboard.new (β : Type) : Dashboard β :=
  { bot := none, isConnected := false, credentials := none, currentPosts := [], trace := [] }

/-- Append a call to the trace. -/
def Dashboard.record {β : Type} (d : Dashboard β) (c : Call) : Dashboard β :=
  { d with trace := d.trace ++ [c] }

/-- What `Date.now()`, `new Date().toISOString()` and `Math.random()` give while one
request is handled. `draw j` stands for the `j`-th `Math.random()` scaled to an integer. -/
structure Env where
  dateNow : Nat → Nat
  isoNow : Nat → String
  draw : Nat → Nat

/-- The response a handler sends: `res.status(..).json(..)`; the status is 200 when
`res.json` is called alone. -/
structure Response where
  status : Nat
  success : Bool
  error : Option String := none
  message : Option String := none
  details : Option String := none
  posts : Option (List Post) := none
  comments : Option (List Comment) := none
  reply : Option String := none
  deriving DecidableEq, Repr

/-- The body of the `try` of `postReply` (lines 426-453), for a bot in state `b`. -/
def postReplyTry {β : Type} (api : BotApi β) (postUrl replyText : String) (b : β)
    (d : Dashboard β) : Except String Bool × Dashboard β :=
  if postUrl == "" || replyText == "" then
    (.error "Post URL and reply text are required", d)
  else if !(includes postUrl "status/") then
    (.error "Invalid tweet URL - must contain status/", d)
  else
    match api.replyToTweet with
    | some replyToTweet =>
      let d1 := d.record (.replyToTweet postUrl replyText)
      match replyToTweet postUrl replyText b with
      | (.ok result, b1) => (.ok result, { d1 with bot := some b1 })
      | (.error e, b1) => (.error e, { d1 with bot := some b1 })
    | none => (.error "Reply functionality not available - bot method missing", d)

/-- The `catch` of `postReply` (lines 454-464), applied to the outcome of the `try`. -/
def postReplyCatch {β : Type} :
    Except String Bool × Dashboard β → Except String Bool × Dashboard β
  | (.ok r, d) => (.ok r, d)
  | (.error message, d) =>
    if includes message "function" || includes message "method" then
      (.error "Reply functionality is not properly initialized. Please restart the bot.", d)
    else
      (.error message, d)

/-- The method `postReply(postUrl, replyText)` of the dashboard (lines 420-465). -/
def postReply {β : Type} (api : BotApi β) (postUrl replyText : String)
    (d0 : Dashboard β) : Except String Bool × Dashboard β :=
  let d := d0.record (.postReply postUrl replyText)
  match d.bot with
  | none => (.error "Bot not connected - please restart the bot connection", d)
  | some b => postReplyCatch (postReplyTry api postUrl replyText b d)

/-- The message the `catch` of the `/post-reply` handler shows for an error
(lines 150-164). -/
def userFriendlyError (message : String) : String :=
  if includes message "navigation" || includes message "navigate" then
    "Could not load the tweet page. Please check the tweet URL and try again."
  else if includes message "reply button" then
    "This tweet does not allow replies, or replies are restricted."
  else if includes message "text area" then
    "Could not access the reply interface. Please try again in a moment."
  else if includes message "timeout" || includes message "Timeout" then
    "Twitter page took too long to load. Please check your connection and try again."
  else if includes message "not connected" || includes message "Bot not connected" then
    "Bot connection lost. Please reconnect your Twitter bot."
  else if includes message "Twitter error:" then
    message
  else
    "Failed to post reply"

/-- The body of a `POST /post-reply` request: the two fields the handler reads, each a
string as the dashboard's page sends it, `none` when the field is absent or `null`. -/
structure PostReplyBody where
  replyText : Option String
  postUrl : Option String
  deriving DecidableEq, Repr

/-- The message V8 gives the `TypeError` of `const { replyText, postUrl } = req.body`
(line 110) when `req.body` is `undefined`. -/
def undefinedBodyTypeError : String :=
  "Cannot destructure property 'replyText' of 'req.body' as it is undefined."

/-- The handler of `POST /post-reply` (lines 101-172). The body is `req.body`: `none` when
it is `undefined` (the request carried no body that `express.json()` parsed), in which
case the destructuring of line 110 throws inside the `try` and the `catch` of lines
146-171 answers. -/
def postReplyHandler {β : Type} (api : BotApi β) (body : Option PostReplyBody)
    (d : Dashboard β) : Response × Dashboard β :=
  if !d.isConnected then
    ({ status := 401, success := false,
       error := some "Bot not connected. Please reconnect your Twitter bot first." }, d)
  else
    match body with
    | none =>
      ({ status := 500, success := false,
         error := some (userFriendlyError undefinedBodyTypeError),
         details := some undefinedBodyTypeError }, d)
    | some fields =>
      match fields.replyText, fields.postUrl with
      | some replyText, some postUrl =>
        if replyText == "" || postUrl == "" then
          ({ status := 400, success := false,
             error := some "Reply text and post URL are required" }, d)
        else if jsLength replyText > 280 then
          ({ status := 400, success := false,
             error := some "Reply text is too long (max 280 characters)" }, d)
        else
          match postReply api postUrl replyText d with
          | (.ok true, d1) =>
            ({ status := 200, success := true,
               message := some "Reply posted successfully! 🎉" }, d1)
          | (.ok false, d1) =>
            ({ status := 500, success := false,
               error := some "Failed to post reply. The reply interface may not be available for this tweet." },
             d1)
          | (.error message, d1) =>
            ({ status := 500, success := false,
               error := some (userFriendlyError message), details := some message }, d1)
      | _, _ =>
        ({ status := 400, success := false,
           error := some "Reply text and post URL are required" }, d)

/-- The message V8 gives the `TypeError` of reading `username` of `null`. -/
def nullUsernameTypeError : String :=
  "Cannot read properties of null (reading 'username')"

/-- One element of `tweets.map(...)` in `getPosts` (lines 245-255); it throws when the
tweet has no url and `this.credentials` is `null`. -/
def formatTweet (env : Env) (credentials : Option Credentials) (tweet : Tweet)
    (index : Nat) : Except String Post :=
  let id := if tweet.id != "" then tweet.id
    else "post_" ++ toString (env.dateNow (2 * index)) ++ "_" ++ toString index
  let text := if tweet.text != "" then tweet.text else "No text"
  let time := if tweet.time != "" then tweet.time else env.isoNow index
  let stats : Stats :=
    { likes := env.draw (3 * index) % 200 + 10
      retweets := env.draw (3 * index + 1) % 50 + 2
      replies := env.draw (3 * index + 2) % 30 + 1 }
  if tweet.url != "" then
    .ok { id := id, text := text, time := time, url := tweet.url, stats := stats }
  else
    match credentials with
    | none => .error nullUsernameTypeError
    | some c =>
      let tail := if tweet.id != "" then tweet.id
        else toString (env.dateNow (2 * index + 1))
      .ok { id := id, text := text, time := time,
            url := "https://twitter.com/" ++ c.username ++ "/status/" ++ tail,
            stats := stats }

/-- The call `tweets.map(...)` of `getPosts`, from index `index` on. -/
def formatTweets (env : Env) (credentials : Option Credentials) :
    List Tweet → Nat → Except String (List Post)
  | [], _ => .ok []
  | tweet :: rest, index =>
    match formatTweet env credentials tweet index with
    | .error e => .error e
    | .ok post =>
      match formatTweets env credentials rest (index + 1) with
      | .error e => .error e
      | .ok posts => .ok (post :: posts)

/-- The body of the `try` of `getPosts` (lines 232-261), for a bot in state `b`. -/
def getPostsTry {β : Type} (api : BotApi β) (env : Env) (b : β)
    (d : Dashboard β) : Except String (List Post) × Dashboard β :=
  let d1 := d.record (.getMyTweets 5)
  match api.getMyTweets 5 b with
  | (.error e, b1) => (.error e, { d1 with bot := some b1 })
  | (.ok none, b1) => (.ok [], { d1 with bot := some b1 })
  | (.ok (some []), b1) => (.ok [], { d1 with bot := some b1 })
  | (.ok (some tweets), b1) =>
    match formatTweets env d.credentials tweets 0 with
    | .error e => (.error e, { d1 with bot := some b1 })
    | .ok formattedPosts =>
      (.ok formattedPosts, { d1 with bot := some b1, currentPosts := formattedPosts })

/-- The `catch` of `getPosts` (lines 262-278), applied to the outcome of the `try`. -/
def getPostsCatch {β : Type} :
    Except String (List Post) × Dashboard β → Except String (List Post) × Dashboard β
  | (.ok posts, d) => (.ok posts, d)
  | (.error message, d) =>
    if includes message "Timeout" then
      (.error "Twitter page timeout - please try again. Check your internet connection and ensure you're logged into Twitter.", d)
    else if includes message "Username not stored" then
      (.error "Username not found - please reconnect the bot first.", d)
    else
      (.error message, d)

/-- The method `getPosts()` of the dashboard (lines 226-279). -/
def getPosts {β : Type} (api : BotApi β) (env : Env)
    (d : Dashboard β) : Except String (List Post) × Dashboard β :=
  match d.bot with
  | none => (.error "Bot not connected", d)
  | some b => getPostsCatch (getPostsTry api env b d)

/-- The handler of `GET /get-posts` (lines 58-70). -/
def getPostsHandler {β : Type} (api : BotApi β) (env : Env)
    (d : Dashboard β) : Response × Dashboard β :=
  if !d.isConnected then
    ({ status := 401, success := false, error := some "Not connected" }, d)
  else
    match getPosts api env d with
    | (.ok posts, d1) => ({ status := 200, success := true, posts := some posts }, d1)
    | (.error message, d1) => ({ status := 500, success := false, error := some message }, d1)

/-- The helper `getCurrentPost(postId)` (lines 282-284): the first stored post whose id is
`postId`. -/
def getCurrentPost {β : Type} (d : Dashboard β) (postId : String) : Option Post :=
  d.currentPosts.find? (fun post => post.id == postId)

/-- The method `getCommentsForPost(postId)` (lines 287-332). It never throws. -/
def getCommentsForPost {β : Type} (api : BotApi β) (postId : String)
    (d : Dashboard β) : List Comment × Dashboard β :=
  match getCurrentPost d postId with
  | none => ([], d)
  | some post =>
    match d.bot, api.getCommentsForTweet with
    | some b, some getCommentsForTweet =>
      if post.url != "" && includes post.url "status/" then
        let d1 := d.record (.getCommentsForTweet post.url)
        match getCommentsForTweet post.url b with
        | (.ok (.array realComments), b1) =>
          if realComments.length > 0 then
            (realComments, { d1 with bot := some b1 })
          else
            ([], { d1 with bot := some b1 })
        | (.ok _, b1) => ([], { d1 with bot := some b1 })
        | (.error _, b1) => ([], { d1 with bot := some b1 })
      else
        ([], d)
    | _, _ => ([], d)

/-- The handler of `GET /get-comments/:postId` (lines 73-86). -/
def getCommentsHandler {β : Type} (api : BotApi β) (postId : String)
    (d : Dashboard β) : Response × Dashboard β :=
  match getCommentsForPost api postId d with
  | (comments, d1) => ({ status := 200, success := true, comments := some comments }, d1)

/-! ## The bot (`twitter-bot-2fa.js`) -/

/-- The options `page.goto` is given. -/
structure GotoOptions where
  waitUntil : Option String := none
  timeout : Option Nat := none
  deriving DecidableEq, Repr

/-- The Playwright page the bot drives, over its own state `σ`. A call that can reject
returns `Except.error` with the message of the error; `waitForTimeout` is one of them (it
rejects when the page or the browser is closed during the wait). `isVisible selector` is `page.locator(selector).isVisible().catch(() => false)`,
whose rejection the source turns into `false`. An element handle is named by the selector
that found it. `scrollBy` and `queryReplies` are the two `page.evaluate` calls of
`getCommentsForTweet`: the second resolves to what the page's DOM holds, on which the
in-page function `extractReplies` runs. `queryTweets` is the extracting `page.evaluate`
of `getMyTweets` in the same way, for the in-page function `extractTweets`. -/
structure Page (σ δ : Type) where
  goto : String → GotoOptions → σ → Except String Unit × σ
  waitForTimeout : Nat → σ → Except String Unit × σ
  isVisible : String → σ → Bool × σ
  url : σ → String
  waitForSelector : String → Nat → σ → Except String Unit × σ
  fill : String → String → σ → Except String Unit × σ
  click : String → Nat → σ → Except String Unit × σ
  press : String → String → σ → Except String Unit × σ
  scrollBy : Nat → σ → Except String Unit × σ
  queryReplies : σ → Except String δ × σ
  queryTweets : σ → Except String δ × σ

/-- What the bot's methods leave in the trace: a wait that resolved, and the result of a
call of `checkIfLoggedIn()` or of `detect2FA()`. -/
inductive Event where
  | waitForTimeout (ms : Nat)
  | checkIfLoggedIn (result : Bool)
  | detect2FA (result : Bool)
  deriving DecidableEq, Repr

/-- The fields of a `TwitterBot2FA` instance after `init()`: the state of its page,
`isLoggedIn`, `username`, and the events so far. -/
structure Bot (σ : Type) where
  page : σ
  isLoggedIn : Bool
  username : Option String
  events : List Event

/-- Append an event. -/
def Bot.log {σ : Type} (bot : Bot σ) (e : Event) : Bot σ :=
  { bot with events := bot.events ++ [e] }

/-- Sequencing of two awaited steps: an error of the first is the error of both. -/
def andThen {σ α γ : Type} (r : Except String α × Bot σ)
    (k : α → Bot σ → Except String γ × Bot σ) : Except String γ × Bot σ :=
  match r with
  | (.ok a, bot) => k a bot
  | (.error e, bot) => (.error e, bot)

/-- A page call that can reject, run on the bot's page. -/
def onPage {σ α : Type} (f : σ → Except String α × σ) (bot : Bot σ) :
    Except String α × Bot σ :=
  match f bot.page with
  | (r, s) => (r, { bot with page := s })

/-- The call `await this.page.waitForTimeout(ms)`: the event is recorded when the wait
resolves; a rejection is thrown. -/
def waitForTimeout {σ δ : Type} (P : Page σ δ) (ms : Nat) (bot : Bot σ) :
    Except String Unit × Bot σ :=
  match P.waitForTimeout ms bot.page with
  | (.ok _, s) => (.ok (), ({ bot with page := s }).log (.waitForTimeout ms))
  | (.error e, s) => (.error e, { bot with page := s })

/-- The loop `for (const s of selectors) if (visible(s)) return true`: whether one of
the selectors is visible, asking them in order and stopping at the first that is. -/
def anyVisible {σ δ : Type} (P : Page σ δ) : List String → σ → Bool × σ
  | [], s => (false, s)
  | selector :: rest, s =>
    match P.isVisible selector s with
    | (true, s1) => (true, s1)
    | (false, s1) => anyVisible P rest s1

/-- The method `checkIfLoggedIn()` (lines 104-119). -/
def checkIfLoggedIn {σ δ : Type} (P : Page σ δ) (bot : Bot σ) : Bool × Bot σ :=
  let indicators := [
    "[data-testid=\"SideNav_AccountSwitcher_Button\"]",
    "[data-testid=\"AppTabBar_Home_Link\"]",
    "[aria-label=\"Home timeline\"]"]
  match anyVisible P indicators bot.page with
  | (true, s) => (true, ({ bot with page := s }).log (.checkIfLoggedIn true))
  | (false, s) =>
    let url := P.url s
    let result := includes url "/home" || includes url "/timeline"
    (result, ({ bot with page := s }).log (.checkIfLoggedIn result))

/-- The method `detect2FA()` (lines 220-238). -/
def detect2FA {σ δ : Type} (P : Page σ δ) (bot : Bot σ) : Bool × Bot σ :=
  let twoFASelectors := [
    "input[data-testid=\"ocfEnterTextTextInput\"]",
    "input[placeholder*=\"verification\"]",
    "input[placeholder*=\"code\"]",
    "text=\"Enter your verification code\"",
    "text=\"We sent you a code\"",
    "text=\"Check your authenticator app\""]
  match anyVisible P twoFASelectors bot.page with
  | (result, s) => (result, ({ bot with page := s }).log (.detect2FA result))

/-- One round of the selector loop shared by `enterUsername` and `enterPassword`: wait
for the selector, fill the input, click the button or, when the click rejects, press
Enter. The result is whether the round reached `return true`. -/
def tryEnter {σ δ : Type} (P : Page σ δ) (selector : String) (timeout : Nat)
    (value button : String) (s : σ) : Bool × σ :=
  match P.waitForSelector selector timeout s with
  | (.error _, s1) => (false, s1)
  | (.ok _, s1) =>
    match P.fill selector value s1 with
    | (.error _, s2) => (false, s2)
    | (.ok _, s2) =>
      match P.click button 2000 s2 with
      | (.ok _, s3) => (true, s3)
      | (.error _, s3) =>
        match P.press selector "Enter" s3 with
        | (.ok _, s4) => (true, s4)
        | (.error _, s4) => (false, s4)

/-- The selector loop shared by `enterUsername` and `enterPassword`: the first selector
whose round succeeds ends it with `true`; when none does, `failure` is thrown. -/
def enterWith {σ δ : Type} (P : Page σ δ) (timeout : Nat) (value button failure : String) :
    List String → σ → Except String Bool × σ
  | [], s => (.error failure, s)
  | selector :: rest, s =>
    match tryEnter P selector timeout value button s with
    | (true, s1) => (.ok true, s1)
    | (false, s1) => enterWith P timeout value button failure rest s1

/-- The method `enterUsername(username)` (lines 121-148). -/
def enterUsername {σ δ : Type} (P : Page σ δ) (username : String) (bot : Bot σ) :
    Except String Bool × Bot σ :=
  onPage (enterWith P 3000 username "text=Next" "Could not find username input"
    ["input[autocomplete=\"username\"]",
     "input[name=\"text\"]",
     "input[data-testid=\"ocfEnterTextTextInput\"]"]) bot

/-- The method `enterPassword(password)` (lines 191-218). -/
def enterPassword {σ δ : Type} (P : Page σ δ) (password : String) (bot : Bot σ) :
    Except String Bool × Bot σ :=
  onPage (enterWith P 5000 password "text=Log in" "Could not find password input"
    ["input[type=\"password\"]",
     "input[name=\"password\"]",
     "input[autocomplete=\"current-password\"]"]) bot

/-- The `while (!completed && attempts < 60)` loop of `handlePhoneVerification`
(lines 168-182), with `remaining = 60 - attempts`; the result is `completed`. A wait that
rejects is thrown. -/
def phoneLoop {σ δ : Type} (P : Page σ δ) (selector : String) :
    Nat → Bot σ → Except String Bool × Bot σ
  | 0, bot => (.ok false, bot)
  | remaining + 1, bot =>
    match waitForTimeout P 5000 bot with
    | (.error e, bot1) => (.error e, bot1)
    | (.ok _, bot1) =>
      match P.isVisible selector bot1.page with
      | (false, s) => (.ok true, { bot1 with page := s })
      | (true, s) => phoneLoop P selector remaining { bot1 with page := s }

/-- The selector loop of `handlePhoneVerification` (lines 158-186). -/
def phoneSelectorsLoop {σ δ : Type} (P : Page σ δ) :
    List String → Bot σ → Except String Bool × Bot σ
  | [], bot => (.ok false, bot)
  | selector :: rest, bot =>
    match P.isVisible selector bot.page with
    | (true, s) => phoneLoop P selector 60 { bot with page := s }
    | (false, s) => phoneSelectorsLoop P rest { bot with page := s }

/-- The method `handlePhoneVerification()` (lines 150-189). -/
def handlePhoneVerification {σ δ : Type} (P : Page σ δ) (bot : Bot σ) :
    Except String Bool × Bot σ :=
  phoneSelectorsLoop P
    ["input[name=\"text\"]",
     "input[placeholder*=\"phone\"]",
     "text=\"Enter your phone number\""] bot

/-- The constant `maxAttempts` of `waitFor2FACompletion` (line 250). -/
def maxAttempts : Nat := 60

/-- The `while (attempts < maxAttempts)` loop of `waitFor2FACompletion` (lines 252-276),
with `remaining = maxAttempts - attempts`: each round waits 5000 ms, then returns `true`
when `checkIfLoggedIn()` holds or `detect2FA()` does not; when no round is left the
timeout error is thrown. The wait is not inside a `try`: when it rejects, its error is
thrown. -/
def waitFor2FALoop {σ δ : Type} (P : Page σ δ) : Nat → Bot σ → Except String Bool × Bot σ
  | 0, bot => (.error "2FA timeout - please complete within 5 minutes", bot)
  | remaining + 1, bot =>
    match waitForTimeout P 5000 bot with
    | (.error e, bot1) => (.error e, bot1)
    | (.ok _, bot1) =>
      match checkIfLoggedIn P bot1 with
      | (true, bot2) => (.ok true, bot2)
      | (false, bot2) =>
        match detect2FA P bot2 with
        | (false, bot3) => (.ok true, bot3)
        | (true, bot3) => waitFor2FALoop P remaining bot3

/-- The method `waitFor2FACompletion()` (lines 240-277): `attempts` starts at 0. -/
def waitFor2FACompletion {σ δ : Type} (P : Page σ δ) (bot : Bot σ) :
    Except String Bool × Bot σ :=
  waitFor2FALoop P maxAttempts bot

/-- The 2FA step of `loginWith2FA` (lines 73-83): after 3000 ms, when `detect2FA()`
holds, wait for the user to complete it. -/
def handle2FA {σ δ : Type} (P : Page σ δ) (bot : Bot σ) : Except String Unit × Bot σ :=
  andThen (waitForTimeout P 3000 bot) fun _ bot0 =>
  match detect2FA P bot0 with
  | (true, bot1) => andThen (waitFor2FACompletion P bot1) (fun _ bot2 => (.ok (), bot2))
  | (false, bot1) => (.ok (), bot1)

/-- The last step of `loginWith2FA` (lines 85-96): after 3000 ms, `checkIfLoggedIn()`
decides the result, and `isLoggedIn` is set when it holds. -/
def verifyLogin {σ δ : Type} (P : Page σ δ) (bot : Bot σ) : Except String Bool × Bot σ :=
  andThen (waitForTimeout P 3000 bot) fun _ bot0 =>
  match checkIfLoggedIn P bot0 with
  | (true, bot1) => (.ok true, { bot1 with isLoggedIn := true })
  | (false, bot1) => (.ok false, bot1)

/-- The steps of `loginWith2FA` from the login page on (lines 53-96). -/
def loginFlow {σ δ : Type} (P : Page σ δ) (username password : String) (bot : Bot σ) :
    Except String Bool × Bot σ :=
  andThen (onPage (P.goto "https://twitter.com/i/flow/login" {}) bot) fun _ bot1 =>
  andThen (waitForTimeout P 3000 bot1) fun _ bot2 =>
  andThen (enterUsername P username bot2) fun _ bot3 =>
  andThen (waitForTimeout P 3000 bot3) fun _ bot4 =>
  andThen (handlePhoneVerification P bot4) fun _ bot5 =>
  andThen (enterPassword P password bot5) fun _ bot6 =>
  andThen (handle2FA P bot6) fun _ bot7 =>
  verifyLogin P bot7

/-- The body of the `try` of `loginWith2FA` (lines 42-96). -/
def loginTry {σ δ : Type} (P : Page σ δ) (username password : String) (bot : Bot σ) :
    Except String Bool × Bot σ :=
  andThen (onPage (P.goto "https://twitter.com/home" {}) bot) fun _ bot1 =>
  andThen (waitForTimeout P 2000 bot1) fun _ bot2 =>
  match checkIfLoggedIn P bot2 with
  | (true, bot3) => (.ok true, bot3)
  | (false, bot3) => loginFlow P username password bot3

/-- The method `loginWith2FA(username, password)` (lines 40-102): the `catch` turns every
error of the `try` into the result `false`. -/
def loginWith2FA {σ δ : Type} (P : Page σ δ) (username password : String) (bot : Bot σ) :
    Bool × Bot σ :=
  match loginTry P username password bot with
  | (.ok result, bot1) => (result, bot1)
  | (.error _, bot1) => (false, bot1)

/-! ### Reading the replies of a tweet -/

/-- JavaScript white space and line terminators, which `trim()` removes. -/
def isJsWhitespace (c : Char) : Bool :=
  let n := c.toNat
  n == 9 || n == 10 || n == 11 || n == 12 || n == 13 || n == 32 || n == 160
    || n == 5760 || (8192 ≤ n && n ≤ 8202) || n == 8232 || n == 8233 || n == 8239
    || n == 8287 || n == 12288 || n == 65279

/-- The method `s.trim()`. -/
def jsTrim (s : String) : String :=
  String.mk ((s.toList.dropWhile isJsWhitespace).reverse.dropWhile isJsWhitespace).reverse

/-- An element matched by one of the tweet selectors, as the in-page function reads it:
`innerText selector` is the `innerText` of `tweet.querySelector(selector)` (`none` when
there is no such element), `hrefs selector` the `href` attributes of
`tweet.querySelectorAll(selector)`, `datetime` the attribute of
`tweet.querySelector('time[datetime]')`. -/
structure TweetElement where
  innerText : String → Option String
  hrefs : String → List (Option String)
  datetime : Option String

/-- The document as the in-page function reads it: `document.querySelectorAll`. -/
structure ReplyDom where
  querySelectorAll : String → List TweetElement

/-- The loop over `tweetSelectors` (lines 651-655): the elements of the first selector
that matches more than one, else those of the last selector tried. -/
def findTweetElements (dom : ReplyDom) : List String → List TweetElement → List TweetElement
  | [], found => found
  | selector :: rest, _ =>
    let tweetElements := dom.querySelectorAll selector
    if tweetElements.length > 1 then tweetElements
    else findTweetElements dom rest tweetElements

/-- The loop over `textSelectors` (lines 680-686): the trimmed text of the first selector
whose element has a non-blank `innerText`, else the empty string. -/
def findText (tweet : TweetElement) : List String → String
  | [] => ""
  | textSelector :: rest =>
    match tweet.innerText textSelector with
    | some innerText =>
      if innerText != "" && jsTrim innerText != "" then jsTrim innerText
      else findText tweet rest
    | none => findText tweet rest

/-- The capture of `href.match(/^\/([^\/\?]+)/)`: the characters after a leading slash up
to the next slash or question mark, when there is at least one. -/
def matchHandle (href : String) : Option String :=
  match href.toList with
  | '/' :: rest =>
    let handle := rest.takeWhile (fun c => c != '/' && c != '?')
    if handle.isEmpty then none else some (String.mk handle)
  | _ => none

/-- The test of one link (lines 704-711): the author it names, if any. -/
def usernameOfHref : Option String → Option String
  | none => none
  | some href =>
    if href != "" && href != "/" && !(includes href "/status/")
        && !(includes href "/photo/") && !(includes href "/hashtag/") then
      match matchHandle href with
      | some handle =>
        if jsLength handle > 0 && jsLength handle < 20 then some ("@" ++ handle) else none
      | none => none
    else none

/-- The loop over `usernameSelectors` (lines 701-714): the author named by the first
link that passes the test, taking the selectors in order. -/
def findUsername (tweet : TweetElement) : List String → Option String
  | [] => none
  | selector :: rest =>
    match (tweet.hrefs selector).findSome? usernameOfHref with
    | some username => some username
    | none => findUsername tweet rest

/-- The body of the extraction loop for the element of index `i` (lines 667-747): the
reply it yields, or `none` when the element is skipped. -/
def replyOfElement (env : Env) (tweet : TweetElement) (i : Nat) : Option Comment :=
  let text := findText tweet [
    "[data-testid=\"tweetText\"]", "[lang] span", "span[dir=\"ltr\"]", "div[lang]",
    ".css-901oao"]
  if text == "" || jsLength text < 3 then none
  else
    let username :=
      match findUsername tweet [
        "[data-testid=\"User-Name\"] [href^=\"/\"]", "[data-testid=\"User-Names\"] a",
        "a[href^=\"/\"][role=\"link\"]", "[dir=\"ltr\"] a[href^=\"/\"]", "a[href^=\"/\"]"] with
      | some found => found
      | none => "@User" ++ toString i
    let timestamp :=
      match tweet.datetime with
      | some datetime => if datetime != "" then datetime else env.isoNow i
      | none => env.isoNow i
    some { id := "reply_" ++ toString (env.dateNow i) ++ "_" ++ toString i,
           author := username, text := text, timestamp := timestamp }

/-- The extraction loop `for (let i = 1; i < tweetElements.length && replies.length < 20;
i++)` (lines 666-748), from index `i` on, `replies` being what was found before. -/
def extractLoop (env : Env) : List TweetElement → Nat → List Comment → List Comment
  | [], _, replies => replies
  | tweet :: rest, i, replies =>
    if replies.length < 20 then
      match replyOfElement env tweet i with
      | some reply => extractLoop env rest (i + 1) (replies ++ [reply])
      | none => extractLoop env rest (i + 1) replies
    else replies

/-- The in-page function of the second `page.evaluate` (lines 637-752). -/
def extractReplies (env : Env) (dom : ReplyDom) : List Comment :=
  let tweetElements := findTweetElements dom [
    "[data-testid=\"tweet\"]", "article[role=\"article\"]",
    "[data-testid=\"cellInnerDiv\"]", "div[role=\"article\"]"] []
  if tweetElements.length ≤ 1 then []
  else extractLoop env (tweetElements.drop 1) 1 []

/-- The three navigation strategies of `getCommentsForTweet` (lines 563-595). -/
def navigateToTweet {σ : Type} (P : Page σ ReplyDom) (tweetUrl : String) (bot : Bot σ) :
    Except String Unit × Bot σ :=
  match onPage (P.goto tweetUrl { waitUntil := some "load", timeout := some 20000 }) bot with
  | (.ok _, bot1) => (.ok (), bot1)
  | (.error _, bot1) =>
    match onPage (P.goto tweetUrl
        { waitUntil := some "domcontentloaded", timeout := some 25000 }) bot1 with
    | (.ok _, bot2) => (.ok (), bot2)
    | (.error _, bot2) =>
      match onPage (P.goto tweetUrl { timeout := some 15000 }) bot2 with
      | (.ok _, bot3) => (.ok (), bot3)
      | (.error message, bot3) => (.error ("Failed to navigate to tweet: " ++ message), bot3)

/-- The wait for content of `getCommentsForTweet` (lines 606-621): each failure of a
selector wait falls back to the next strategy, the last being a plain delay, whose
rejection is thrown. -/
def waitForTweetContent {σ : Type} (P : Page σ ReplyDom) (bot : Bot σ) :
    Except String Unit × Bot σ :=
  match onPage (P.waitForSelector "[data-testid=\"tweet\"]" 10000) bot with
  | (.ok _, bot1) => (.ok (), bot1)
  | (.error _, bot1) =>
    match onPage (P.waitForSelector "article, [role=\"article\"]" 8000) bot1 with
    | (.ok _, bot2) => (.ok (), bot2)
    | (.error _, bot2) => waitForTimeout P 3000 bot2

/-- The scroll of `getCommentsForTweet` (lines 625-634): a failure of the scroll or of the
wait after it is ignored. -/
def scrollForReplies {σ : Type} (P : Page σ ReplyDom) (bot : Bot σ) : Bot σ :=
  match onPage (P.scrollBy 1500) bot with
  | (.ok _, bot1) => (waitForTimeout P 3000 bot1).2
  | (.error _, bot1) => bot1

/-- The body of the `try` of `getCommentsForTweet` (lines 558-770). -/
def getCommentsForTweetTry {σ : Type} (P : Page σ ReplyDom) (env : Env) (tweetUrl : String)
    (bot : Bot σ) : Except String (List Comment) × Bot σ :=
  andThen (navigateToTweet P tweetUrl bot) fun _ bot1 =>
  andThen (waitForTweetContent P bot1) fun _ bot2 =>
  andThen (onPage P.queryReplies (scrollForReplies P bot2))
    fun dom bot3 => (.ok (extractReplies env dom), bot3)

/-- The method `getCommentsForTweet(tweetUrl)` (lines 556-785): the `catch` turns every
error of the `try` into the result `[]`. -/
def getCommentsForTweet {σ : Type} (P : Page σ ReplyDom) (env : Env) (tweetUrl : String)
    (bot : Bot σ) : List Comment × Bot σ :=
  match getCommentsForTweetTry P env tweetUrl bot with
  | (.ok replies, bot1) => (replies, bot1)
  | (.error _, bot1) => ([], bot1)

/-! ## Generating a reply (`generateReply`, `working-dashboard.js`) -/

/-- The argument `originalPost`: an object whose `text` may be absent. -/
structure PostArg where
  text : Option String
  deriving DecidableEq, Repr

/-- The argument `comment`: an object whose `author` and `text` may be absent. -/
structure CommentArg where
  author : Option String
  text : Option String
  deriving DecidableEq, Repr

/-- The request `generateReply` passes to `fetch` (lines 362-380); the temperature is in
tenths. -/
structure ApiRequest where
  url : String
  method : String
  contentType : String
  authorization : String
  model : String
  role : String
  content : String
  maxTokens : Nat
  temperatureTenths : Nat
  stream : Bool
  deriving DecidableEq, Repr

/-- The `content` of `data.choices[0].message` as `generateReply` reads it: absent
(`undefined`), `null`, or a string. -/
inductive MessageContent where
  | absent
  | null
  | text (content : String)
  deriving DecidableEq, Repr

/-- What `response.json()` resolves to, as far as `generateReply` reads it: the JSON
`null`, or a value of which `error?.message` is `errorMessage` (`none` when absent) and of
which `choices[0].message` is absent (`none`) or has the `content` held. -/
inductive ApiBody where
  | null
  | object (errorMessage : Option String) (message : Option MessageContent)
  deriving DecidableEq, Repr

/-- The response `fetch` resolves to; `json` is the outcome of `response.json()`, an error
when the body is not JSON. -/
structure ApiResponse where
  ok : Bool
  status : Nat
  json : Except String ApiBody

/-- The function `fetch`, over the state `ν` of the network; an error is its rejection. -/
structure Network (ν : Type) where
  fetch : ApiRequest → ν → Except String ApiResponse × ν

/-- The state of the network with the trace of the calls made. -/
structure NetState (ν : Type) where
  net : ν
  trace : List Call

/-- The template string `prompt` (lines 348-360); an absent `comment.author` prints as
`undefined`. -/
def buildPrompt (postText : String) (author : Option String) (commentText : String)
    (instructions : String) : String :=
  "You are replying to a comment on your Twitter post. Here are the details:\n\n"
  ++ "YOUR ORIGINAL POST:\n\"" ++ postText ++ "\"\n\n"
  ++ "COMMENT TO REPLY TO:\nAuthor: " ++ author.getD "undefined" ++ "\n"
  ++ "Comment: \"" ++ commentText ++ "\"\n\n"
  ++ "INSTRUCTIONS:\n" ++ instructions ++ "\n\n"
  ++ "Generate a thoughtful, engaging reply that follows the instructions above. Keep it under 280 characters and make it natural for Twitter. Only return the reply text, nothing else."

/-- The request of lines 362-380. -/
def buildRequest (apiKey prompt : String) : ApiRequest :=
  { url := "https://api.deepseek.com/v1/chat/completions"
    method := "POST"
    contentType := "application/json"
    authorization := "Bearer " ++ apiKey
    model := "deepseek-chat"
    role := "user"
    content := prompt
    maxTokens := 100
    temperatureTenths := 7
    stream := false }

/-- True of a single or a double quote. -/
def isQuote (c : Char) : Bool :=
  c == '"' || c == '\''

/-- The call `aiReply.replace(/^["']|["']$/g, '')` (line 404): a quote at the start is
removed, then a quote at the end. -/
def stripQuotes (aiReply : String) : String :=
  let chars := aiReply.toList
  let chars1 :=
    match chars with
    | c :: rest => if isQuote c then rest else chars
    | [] => chars
  let chars2 :=
    match chars1.getLast? with
    | some c => if isQuote c then chars1.dropLast else chars1
    | none => chars1
  String.mk chars2

/-- The branch `if (!response.ok)` (lines 382-393): the error it throws. `errorData` is
the parsed body, or `{}` when the body is not JSON. -/
def apiErrorMessage (response : ApiResponse) : String :=
  let errorData : ApiBody :=
    match response.json with
    | .ok data => data
    | .error _ => .object none none
  if response.status == 401 then
    "Invalid DeepSeek API key. Please check your API key."
  else if response.status == 429 then
    "DeepSeek API rate limit exceeded. Please try again later."
  else
    match errorData with
    | .null => "Cannot read properties of null (reading 'error')"
    | .object errorMessage _ =>
      "DeepSeek API error: " ++ toString response.status ++ " "
        ++ (if truthy errorMessage then errorMessage.getD "" else "Unknown error")

/-- Lines 395-407: what an OK response yields. -/
def replyOfResponse (response : ApiResponse) : Except String String :=
  match response.json with
  | .error e => .error e
  | .ok .null => .error "Cannot read properties of null (reading 'choices')"
  | .ok (.object _ none) => .error "Invalid response from DeepSeek API"
  | .ok (.object _ (some .absent)) =>
    .error "Cannot read properties of undefined (reading 'trim')"
  | .ok (.object _ (some .null)) => .error "Cannot read properties of null (reading 'trim')"
  | .ok (.object _ (some (.text content))) => .ok (stripQuotes (jsTrim content))

/-- The body of the `try` of `generateReply` (lines 344-407), `apiKey` and `instructions`
being the strings the guards let through. -/
def generateReplyTry {ν : Type} (network : Network ν) (originalPost : Option PostArg)
    (comment : Option CommentArg) (apiKey instructions : String) (w : NetState ν) :
    Except String String × NetState ν :=
  match originalPost with
  | none => (.error "Cannot read properties of undefined (reading 'text')", w)
  | some { text := none } =>
    (.error "Cannot read properties of undefined (reading 'substring')", w)
  | some { text := some postText } =>
    match comment with
    | none => (.error "Cannot read properties of undefined (reading 'text')", w)
    | some { author := _, text := none } =>
      (.error "Cannot read properties of undefined (reading 'substring')", w)
    | some { author := author, text := some commentText } =>
      let request := buildRequest apiKey (buildPrompt postText author commentText instructions)
      let trace := w.trace ++ [Call.fetch request.url]
      match network.fetch request w.net with
      | (.error e, n1) => (.error e, { net := n1, trace := trace })
      | (.ok response, n1) =>
        if !response.ok then
          (.error (apiErrorMessage response), { net := n1, trace := trace })
        else
          (replyOfResponse response, { net := n1, trace := trace })

/-- The `catch` of `generateReply` (lines 409-417), applied to the outcome of the `try`. -/
def generateReplyCatch {ν : Type} :
    Except String String × NetState ν → Except String String × NetState ν
  | (.ok reply, w) => (.ok reply, w)
  | (.error message, w) =>
    if includes message "fetch" then
      (.error "Failed to connect to DeepSeek API. Check your internet connection.", w)
    else
      (.error message, w)

/-- The method `generateReply(originalPost, comment, apiKey, instructions)`
(lines 334-418). -/
def generateReply {ν : Type} (network : Network ν) (originalPost : Option PostArg)
    (comment : Option CommentArg) (apiKey instructions : Option String) (w : NetState ν) :
    Except String String × NetState ν :=
  if !truthy apiKey then
    (.error "DeepSeek API key is required. Please enter your API key in the settings.", w)
  else if !truthy instructions then
    (.error "AI instructions are required. Please enter instructions for how the AI should reply.", w)
  else
    generateReplyCatch
      (generateReplyTry network originalPost comment (apiKey.getD "") (instructions.getD "") w)

/-- The events of one round of `waitFor2FACompletion` that leaves the user waiting: the
5000 ms wait, `checkIfLoggedIn()` false, `detect2FA()` true. -/
def stillWaiting : List Event :=
  [.waitForTimeout 5000, .checkIfLoggedIn false, .detect2FA true]

/-- The events of `k` rounds that leave the user waiting. -/
def waitingRounds (k : Nat) : List Event :=
  (List.replicate k stillWaiting).flatten

/-- The milliseconds the events spend in `waitForTimeout`. -/
def waitedMs : List Event → Nat
  | [] => 0
  | .waitForTimeout ms :: rest => ms + waitedMs rest
  | _ :: rest => waitedMs rest

/-- How many times the events call `checkIfLoggedIn`: the polls made. -/
def pollCount : List Event → Nat
  | [] => 0
  | .checkIfLoggedIn _ :: rest => 1 + pollCount rest
  | _ :: rest => pollCount rest

/-- A page whose state counts the waits elapsed. The 2FA prompt shows until `passAfter`
waits have elapsed and nothing else is ever visible; the address stays that of the login
flow; every navigation resolves; no input is found and the extracting `evaluate`
rejects. -/
def promptPage (passAfter : Nat) : Page Nat ReplyDom :=
  { goto := fun _ _ s => (.ok (), s)
    waitForTimeout := fun _ s => (.ok (), s + 1)
    isVisible := fun selector s => (selector == "input[placeholder*=\"code\"]" && s < passAfter, s)
    url := fun _ => "https://twitter.com/i/flow/login"
    waitForSelector := fun _ ms s => (.error ("Timeout " ++ toString ms ++ "ms exceeded"), s)
    fill := fun _ _ s => (.ok (), s)
    click := fun _ _ s => (.ok (), s)
    press := fun _ _ s => (.ok (), s)
    scrollBy := fun _ s => (.ok (), s)
    queryReplies := fun s => (.error "Execution context was destroyed", s)
    queryTweets := fun s => (.error "Execution context was destroyed", s) }

/-- A page on which no navigation succeeds. -/
def offlinePage : Page Nat ReplyDom :=
  { promptPage 0 with
    goto := fun _ _ s => (.error "net::ERR_INTERNET_DISCONNECTED", s + 1) }

/-- A bot right after `init()`. -/
def freshBot : Bot Nat :=
  { page := 0, isLoggedIn := false, username := none, events := [] }

/-- A clock and random source that are constant. -/
def sampleEnv : Env :=
  { dateNow := fun _ => 1700000000000, isoNow := fun _ => "2023-11-14T22:13:20.000Z",
    draw := fun _ => 0 }

/-- A network whose API answers every request with the given status, not OK, and a body
that is not JSON. -/
def failingNetwork (status : Nat) : Network Nat :=
  { fetch := fun _ n =>
      (.ok { ok := false, status := status,
             json := .error "Unexpected token < in JSON at position 0" }, n + 1) }

/-- The network state before any request. -/
def freshNet : NetState Nat :=
  { net := 0, trace := [] }

/-- An element whose text is under the first text selector and whose links are found by
the last username selector only: first a link to a status, then `href`. -/
def sampleElement (text href : String) : TweetElement :=
  { innerText := fun selector =>
      if selector == "[data-testid=\"tweetText\"]" then some text else none
    hrefs := fun selector =>
      if selector == "a[href^=\"/\"]" then [some "/bob/status/5", some href] else []
    datetime := some "2024-01-01T00:00:00.000Z" }

/-- A document in which the first tweet selector matches the original tweet and one
reply. -/
def sampleDom : ReplyDom :=
  { querySelectorAll := fun selector =>
      if selector == "[data-testid=\"tweet\"]" then
        [sampleElement "original tweet" "/alice", sampleElement "  nice post!  " "/bob?x=1"]
      else [] }

/-- A page on which the selector waits and the scroll fail but navigation and the
extracting `evaluate` succeed. -/
def repliesPage : Page Nat ReplyDom :=
  { promptPage 0 with
    scrollBy := fun _ s => (.error "Execution context was destroyed", s)
    queryReplies := fun s => (.ok sampleDom, s) }

/-- The message C11 claims for a response that is not OK, in the claim's words:
'DeepSeek API error: ' + status + ' ' + m, where m is the body's `error.message` when
present and non-empty and 'Unknown error' otherwise. -/
def claimedApiMessage (response : ApiResponse) : String :=
  "DeepSeek API error: " ++ toString response.status ++ " "
    ++ (match response.json with
        | .ok (.object (some message) _) => if message != "" then message else "Unknown error"
        | _ => "Unknown error")

/-- The response of `serverErrorNetwork body`. -/
def serverErrorResponse (body : ApiBody) : ApiResponse :=
  { ok := false, status := 500, json := .ok body }

/-- A network whose API answers every request with status 500 and the given parsed
body. -/
def serverErrorNetwork (body : ApiBody) : Network Nat :=
  { fetch := fun _ n => (.ok (serverErrorResponse body), n + 1) }

/-- A network whose API answers every request with status 200 and a first message of the
given content. -/
def replyingNetwork (content : String) : Network Nat :=
  { fetch := fun _ n =>
      (.ok { ok := true, status := 200, json := .ok (.object none (some (.text content))) },
       n + 1) }

/-! ### Reading the tweets of the profile (`getMyTweets`) -/

/-- The method `s.startsWith(start)`. -/
def startsWith (s start : String) : Bool :=
  start.toList.isPrefixOf s.toList

/-- The loop over `tweetSelectors` of `getMyTweets` (lines 426-430): the elements of the
first selector that matches any, else those of the last selector tried. -/
def findProfileElements (dom : ReplyDom) :
    List String → List TweetElement → List TweetElement
  | [], found => found
  | selector :: rest, _ =>
    let tweetElements := dom.querySelectorAll selector
    if tweetElements.length > 0 then tweetElements
    else findProfileElements dom rest tweetElements

/-- The `textSelectors` of `getMyTweets` (lines 446-452). -/
def profileTextSelectors : List String :=
  ["[data-testid=\"tweetText\"]", "[lang] span", "span[dir=\"ltr\"]", "div[lang] span",
   ".css-901oao"]

/-- The capture of `href.match(/\/status\/(\d+)/)`: the digits that follow the first
`/status/` that a digit follows. -/
def matchStatusId : List Char → Option String
  | [] => none
  | c :: rest =>
    if "/status/".toList.isPrefixOf (c :: rest) then
      let digits := ((c :: rest).drop 8).takeWhile Char.isDigit
      if digits.isEmpty then matchStatusId rest else some (String.mk digits)
    else matchStatusId rest

/-- The loop over `linkSelectors` (lines 478-491): `tweetId` and `tweetUrl` from the
first selector whose element has a link to a status, none when no selector has. -/
def findLink (tweet : TweetElement) : List String → Option (String × String)
  | [] => none
  | linkSelector :: rest =>
    match (tweet.hrefs linkSelector).head? with
    | some (some href) =>
      if href != "" && includes href "/status/" then
        match matchStatusId href.toList with
        | some tweetId =>
          some (tweetId,
            if startsWith href "http" then href else "https://twitter.com" ++ href)
        | none => findLink tweet rest
      else findLink tweet rest
    | _ => findLink tweet rest

/-- The body of the extraction loop of `getMyTweets` for the element of index `i`
(lines 441-517): the tweet it pushes, or `none` when the element is skipped. -/
def tweetOfElement (env : Env) (tweet : TweetElement) (i : Nat) : Option Tweet :=
  let text := findText tweet profileTextSelectors
  if text == "" || jsLength text < 5 then none
  else if startsWith text "RT @" || startsWith text "@" then none
  else
    let link := findLink tweet [
      "a[href*=\"/status/\"]", "time[datetime] a", "a[role=\"link\"][href*=\"/status/\"]"]
    let timestamp :=
      match tweet.datetime with
      | some datetime => if datetime != "" then datetime else env.isoNow i
      | none => env.isoNow i
    if text != "" && jsLength text > 10 then
      some { id := match link with
               | some (tweetId, _) =>
                 if tweetId != "" then tweetId
                 else "tweet_" ++ toString (env.dateNow i) ++ "_" ++ toString i
               | none => "tweet_" ++ toString (env.dateNow i) ++ "_" ++ toString i
             text := text
             time := timestamp
             url := match link with
               | some (_, tweetUrl) => tweetUrl
               | none => "" }
    else none

/-- The extraction loop of `getMyTweets` (lines 440-518) from index `i` on, `tweets` being
what was pushed before: it stops when `maxCount` tweets are pushed. -/
def tweetLoop (env : Env) (maxCount : Nat) :
    List TweetElement → Nat → List Tweet → List Tweet
  | [], _, tweets => tweets
  | element :: rest, i, tweets =>
    match tweetOfElement env element i with
    | some tweet =>
      if (tweets ++ [tweet]).length ≥ maxCount then tweets ++ [tweet]
      else tweetLoop env maxCount rest (i + 1) (tweets ++ [tweet])
    | none => tweetLoop env maxCount rest (i + 1) tweets

/-- The in-page function of the extracting `page.evaluate` of `getMyTweets`
(lines 412-522): it reads the first `Math.min(tweetElements.length, maxCount * 3)`
elements. -/
def extractTweets (env : Env) (maxCount : Nat) (dom : ReplyDom) : List Tweet :=
  let tweetElements := findProfileElements dom [
    "[data-testid=\"tweet\"]", "article[role=\"article\"]",
    "[data-testid=\"cellInnerDiv\"]", "div[role=\"article\"]"] []
  if tweetElements.length == 0 then []
  else tweetLoop env maxCount
    (tweetElements.take (min tweetElements.length (maxCount * 3))) 0 []

/-- The three navigation strategies of `getMyTweets` (lines 331-364). -/
def navigateToProfile {σ : Type} (P : Page σ ReplyDom) (profileUrl : String) (bot : Bot σ) :
    Except String Unit × Bot σ :=
  match onPage (P.goto profileUrl { waitUntil := some "load", timeout := some 20000 }) bot with
  | (.ok _, bot1) => (.ok (), bot1)
  | (.error _, bot1) =>
    match onPage (P.goto profileUrl
        { waitUntil := some "domcontentloaded", timeout := some 30000 }) bot1 with
    | (.ok _, bot2) => (.ok (), bot2)
    | (.error _, bot2) =>
      match onPage (P.goto profileUrl { timeout := some 15000 }) bot2 with
      | (.ok _, bot3) => (.ok (), bot3)
      | (.error message, bot3) =>
        (.error ("Failed to navigate to profile: " ++ message), bot3)

/-- The wait for content of `getMyTweets` (lines 376-395): each failure of a selector
wait falls back to the next strategy, the last being a plain delay, whose rejection is
thrown. -/
def waitForProfileContent {σ : Type} (P : Page σ ReplyDom) (bot : Bot σ) :
    Except String Unit × Bot σ :=
  match onPage (P.waitForSelector "[data-testid=\"tweet\"]" 15000) bot with
  | (.ok _, bot1) => (.ok (), bot1)
  | (.error _, bot1) =>
    match onPage (P.waitForSelector
        "article, [role=\"article\"], [data-testid=\"cellInnerDiv\"]" 10000) bot1 with
    | (.ok _, bot2) => (.ok (), bot2)
    | (.error _, bot2) => waitForTimeout P 5000 bot2

/-- The scroll of `getMyTweets` (lines 399-408): a failure of the scroll or of the wait
after it is ignored. -/
def scrollForTweets {σ : Type} (P : Page σ ReplyDom) (bot : Bot σ) : Bot σ :=
  match onPage (P.scrollBy 800) bot with
  | (.ok _, bot1) => (waitForTimeout P 3000 bot1).2
  | (.error _, bot1) => bot1

/-- The filter of line 527: `tweet.text && tweet.text.length > 5`. -/
def isValidTweet (tweet : Tweet) : Bool :=
  tweet.text != "" && jsLength tweet.text > 5

/-- The method `getMyTweets(count)` (lines 316-553); its `catch` throws the error of the
`try` again, so an error of the `try` is the error of the method. -/
def getMyTweets {σ : Type} (P : Page σ ReplyDom) (env : Env) (count : Nat) (bot : Bot σ) :
    Except String (List Tweet) × Bot σ :=
  match bot.username with
  | none => (.error "Username not stored. Call storeUsername() first after login.", bot)
  | some username =>
    if username == "" then
      (.error "Username not stored. Call storeUsername() first after login.", bot)
    else
      andThen (navigateToProfile P ("https://twitter.com/" ++ username) bot) fun _ bot1 =>
      andThen (waitForProfileContent P bot1) fun _ bot2 =>
      andThen (onPage P.queryTweets (scrollForTweets P bot2))
        fun dom bot3 => (.ok ((extractTweets env count dom).filter isValidTweet), bot3)

/-- The text is the trimmed inner text of the first of the selectors, in their order,
whose element exists and has an inner text that is not blank. -/
def IsFirstText (tweet : TweetElement) (selectors : List String) (text : String) : Prop :=
  ∃ before selector after innerText,
    selectors = before ++ selector :: after
    ∧ tweet.innerText selector = some innerText
    ∧ jsTrim innerText ≠ ""
    ∧ text = jsTrim innerText
    ∧ ∀ earlier ∈ before,
        tweet.innerText earlier = none
        ∨ ∃ blank, tweet.innerText earlier = some blank ∧ jsTrim blank = ""

/-- The elements the in-page function of `getCommentsForTweet` works on: what the loop
over `tweetSelectors` leaves in `tweetElements`. -/
def replyElements (dom : ReplyDom) : List TweetElement :=
  findTweetElements dom [
    "[data-testid=\"tweet\"]", "article[role=\"article\"]",
    "[data-testid=\"cellInnerDiv\"]", "div[role=\"article\"]"] []

/-- The reply the loop body yields for the element of index `j` of `elements`, counted
from `start`. -/
def replyAt (env : Env) (elements : List TweetElement) (start j : Nat) : Option Comment :=
  (elements[j - start]?).bind (fun element => replyOfElement env element j)

/-- An element of the profile: the first text selector finds a blank text, the second finds
`text`; the first link selector finds a link to `href`. -/
def profileElement (text href : String) : TweetElement :=
  { innerText := fun selector =>
      if selector == "[data-testid=\"tweetText\"]" then some "  "
      else if selector == "[lang] span" then some text
      else none
    hrefs := fun selector =>
      if selector == "a[href*=\"/status/\"]" then [some href] else []
    datetime := none }

/-- A profile on which the second tweet selector matches a retweet, a reply, a short text
and a tweet. -/
def profileDom : ReplyDom :=
  { querySelectorAll := fun selector =>
      if selector == "article[role=\"article\"]" then
        [profileElement "RT @bob: a retweet of something" "/bob/status/1",
         profileElement "@carol thanks for the kind words" "/alice/status/2",
         profileElement "short one" "/alice/status/3",
         profileElement "  My first real tweet here  " "/alice/status/123?s=20"]
      else [] }

/-- A page on which the selector waits fail but navigation, the scroll and the extracting
`evaluate` of `getMyTweets` succeed. -/
def profilePage : Page Nat ReplyDom :=
  { promptPage 0 with queryTweets := fun s => (.ok profileDom, s) }

/-- A bot after `storeUsername('alice')`. -/
def namedBot : Bot Nat :=
  { freshBot with username := some "alice" }

/-- A document in which the first tweet selector matches the original tweet and 24
replies. -/
def crowdedDom : ReplyDom :=
  { querySelectorAll := fun selector =>
      if selector == "[data-testid=\"tweet\"]" then
        List.replicate 25 (sampleElement "nice post!" "/bob")
      else [] }

/-- The tweet `getMyTweets` reads from the last element of `profileDom`. -/
def firstRealTweet : Tweet :=
  { id := "123"
    text := "My first real tweet here"
    time := "2023-11-14T22:13:20.000Z"
    url := "https://twitter.com/alice/status/123?s=20" }

/-- A page whose window was closed: every wait is rejected. -/
def closedPage : Page Nat ReplyDom :=
  { promptPage 0 with
    waitForTimeout := fun _ s =>
      (.error "page.waitForTimeout: Target page, context or browser has been closed", s) }

/-- A page like `promptPage passAfter` on which every input is found. -/
def formPage (passAfter : Nat) : Page Nat ReplyDom :=
  { promptPage passAfter with waitForSelector := fun _ _ s => (.ok (), s) }

/-- A page on which the username input is found and no password input is. -/
def passwordlessPage : Page Nat ReplyDom :=
  { promptPage 0 with
    waitForSelector := fun selector ms s =>
      if selector == "input[autocomplete=\"username\"]" then (.ok (), s)
      else (.error ("Timeout " ++ toString ms ++ "ms exceeded"), s) }

/-! ## Sample inputs -/

/-- A bot whose every method is present and succeeds, over a state that counts the calls
made to it. -/
def sampleApi : BotApi Nat :=
  { getMyTweets := fun _ n => (.ok (some []), n + 1)
    getCommentsForTweet := some (fun _ n => (.ok (.array []), n + 1))
    replyToTweet := some (fun _ _ n => (.ok true, n + 1)) }

/-- A connected dashboard that has loaded no posts. -/
def sampleDashboard : Dashboard Nat :=
  { bot := some 0, isConnected := true,
    credentials := some { username := "alice", password := "pw" },
    currentPosts := [], trace := [] }

/-- A dashboard that is not connected although a bot object exists. -/
def disconnectedDashboard : Dashboard Nat :=
  { bot := some 0, isConnected := false, credentials := none, currentPosts := [], trace := [] }

/-! ## Theorems: the dashboard -/

/-- The `catch` of `postReply` leaves the state as the `try` left it. -/
theorem postReplyCatch_state {β : Type} (r : Except String Bool × Dashboard β) :
    (postReplyCatch r).2 = r.2 := by
  rcases r with ⟨_ | _, d⟩
  · simp only [postReplyCatch]; split <;> rfl
  · rfl

/-- The `try` of `postReply` appends at most one call, of `bot.replyToTweet`. -/
theorem postReplyTry_trace {β : Type} (api : BotApi β) (postUrl replyText : String)
    (b : β) (d : Dashboard β) :
    (postReplyTry api postUrl replyText b d).2.trace = d.trace
    ∨ (postReplyTry api postUrl replyText b d).2.trace
        = d.trace ++ [Call.replyToTweet postUrl replyText] := by
  unfold postReplyTry
  split
  · exact Or.inl rfl
  · split
    · exact Or.inl rfl
    · split
      · simp only [Dashboard.record]
        split <;> exact Or.inr rfl
      · exact Or.inl rfl

/-- The method `postReply` appends its own call to the trace, then at most one call of
`bot.replyToTweet`, and nothing else. -/
theorem postReply_trace {β : Type} (api : BotApi β) (postUrl replyText : String)
    (d : Dashboard β) :
    (postReply api postUrl replyText d).2.trace = d.trace ++ [Call.postReply postUrl replyText]
    ∨ (postReply api postUrl replyText d).2.trace
        = d.trace ++ [Call.postReply postUrl replyText, Call.replyToTweet postUrl replyText] := by
  unfold postReply
  simp only []
  split
  · exact Or.inl rfl
  · rename_i b hb
    rw [postReplyCatch_state]
    rcases postReplyTry_trace api postUrl replyText b
      (d.record (Call.postReply postUrl replyText)) with h | h
    · exact Or.inl (by rw [h]; rfl)
    · exact Or.inr (by rw [h]; simp [Dashboard.record])

/-- The message of the `catch` of `/post-reply` is never the length rejection. -/
theorem userFriendlyError_ne_tooLong (message : String) :
    userFriendlyError message ≠ "Reply text is too long (max 280 characters)" := by
  unfold userFriendlyError
  split
  · decide
  · split
    · decide
    · split
      · decide
      · split
        · decide
        · split
          · decide
          · split
            · rename_i h
              intro hm
              rw [hm] at h
              revert h
              decide
            · decide

/-- C1. `POST /post-reply` while connected, with a non-empty `replyText` and a non-empty
`postUrl`: when `replyText.length > 280` the response is status 400 with error
'Reply text is too long (max 280 characters)' and nothing is called (the state, trace
included, is unchanged); when `replyText.length <= 280` the response is not a 400 and not
the length error, and exactly one call `postReply(postUrl, replyText)` is added to the
trace. -/
theorem postReplyHandler_length_check {β : Type} (api : BotApi β) (d : Dashboard β)
    (replyText postUrl : String) (hconn : d.isConnected = true)
    (hr : replyText ≠ "") (hu : postUrl ≠ "") :
    (280 < jsLength replyText →
      (postReplyHandler api (some ⟨some replyText, some postUrl⟩) d).1
          = { status := 400, success := false,
              error := some "Reply text is too long (max 280 characters)" }
      ∧ (postReplyHandler api (some ⟨some replyText, some postUrl⟩) d).2 = d
      ∧ (postReplyHandler api (some ⟨some replyText, some postUrl⟩) d).2.trace.filter Call.isPostReply
          = d.trace.filter Call.isPostReply)
    ∧ (jsLength replyText ≤ 280 →
      (postReplyHandler api (some ⟨some replyText, some postUrl⟩) d).1.status ≠ 400
      ∧ (postReplyHandler api (some ⟨some replyText, some postUrl⟩) d).1.error
          ≠ some "Reply text is too long (max 280 characters)"
      ∧ (postReplyHandler api (some ⟨some replyText, some postUrl⟩) d).2
          = (postReply api postUrl replyText d).2
      ∧ (postReplyHandler api (some ⟨some replyText, some postUrl⟩) d).2.trace.filter Call.isPostReply
          = d.trace.filter Call.isPostReply ++ [Call.postReply postUrl replyText]) := by
  have hr1 : (replyText == "") = false := by simpa using hr
  have hu1 : (postUrl == "") = false := by simpa using hu
  constructor
  · intro hlen
    simp [postReplyHandler, hconn, hr1, hu1, hlen]
  · intro hlen
    have hlen1 : ¬ (jsLength replyText > 280) := by omega
    have hstep : postReplyHandler api (some ⟨some replyText, some postUrl⟩) d
        = match postReply api postUrl replyText d with
          | (.ok true, d1) =>
            ({ status := 200, success := true,
               message := some "Reply posted successfully! 🎉" }, d1)
          | (.ok false, d1) =>
            ({ status := 500, success := false,
               error := some "Failed to post reply. The reply interface may not be available for this tweet." },
             d1)
          | (.error message, d1) =>
            ({ status := 500, success := false,
               error := some (userFriendlyError message), details := some message }, d1) := by
      simp [postReplyHandler, hconn, hr1, hu1, hlen1]
    have htrace : (postReply api postUrl replyText d).2.trace.filter Call.isPostReply
        = d.trace.filter Call.isPostReply ++ [Call.postReply postUrl replyText] := by
      rcases postReply_trace api postUrl replyText d with h | h <;>
        simp [h, List.filter_append, Call.isPostReply]
    rw [hstep]
    rcases hpr : postReply api postUrl replyText d with ⟨r, d1⟩
    rw [hpr] at htrace
    rcases r with message | ok
    · refine ⟨by simp, ?_, rfl, htrace⟩
      simpa using userFriendlyError_ne_tooLong message
    · cases ok
      · exact ⟨by simp, by simp, rfl, htrace⟩
      · exact ⟨by simp, by simp, rfl, htrace⟩

set_option maxRecDepth 100000 in
/-- Witness for C1: a 2-character reply is passed to `postReply`, a 281-character reply is
rejected with status 400. -/
theorem postReplyHandler_length_check_witness :
    (postReplyHandler sampleApi
        (some ⟨some "hi", some "https://twitter.com/alice/status/1"⟩)
        sampleDashboard).1.status ≠ 400
    ∧ (postReplyHandler sampleApi
        (some ⟨some (String.mk (List.replicate 281 'a')),
          some "https://twitter.com/alice/status/1"⟩)
        sampleDashboard).2 = sampleDashboard :=
  ⟨((postReplyHandler_length_check sampleApi sampleDashboard "hi"
      "https://twitter.com/alice/status/1" rfl (by decide) (by decide)).2 (by decide)).1,
   ((postReplyHandler_length_check sampleApi sampleDashboard
      (String.mk (List.replicate 281 'a'))
      "https://twitter.com/alice/status/1" rfl (by decide) (by decide)).1 (by decide)).2.1⟩

/-- C2. While `isConnected` is false, `GET /get-posts` and `POST /post-reply` both answer
status 401 with `success = false` and leave the state, trace included, unchanged (no bot
method is called); for `/post-reply` whatever the request body is, an absent body
included, so the connection check comes before the 400 validation of the body. -/
theorem handlers_unauthorized_when_disconnected {β : Type} (api : BotApi β) (env : Env)
    (body : Option PostReplyBody) (d : Dashboard β) (hconn : d.isConnected = false) :
    ((getPostsHandler api env d).1.status = 401
      ∧ (getPostsHandler api env d).1.success = false
      ∧ (getPostsHandler api env d).2 = d
      ∧ (getPostsHandler api env d).2.trace.filter Call.isBotCall
          = d.trace.filter Call.isBotCall)
    ∧ ((postReplyHandler api body d).1.status = 401
      ∧ (postReplyHandler api body d).1.success = false
      ∧ (postReplyHandler api body d).2 = d
      ∧ (postReplyHandler api body d).2.trace.filter Call.isBotCall
          = d.trace.filter Call.isBotCall) := by
  simp [getPostsHandler, postReplyHandler, hconn]

/-- Witness for C2: a disconnected dashboard, a body that would fail validation. -/
theorem handlers_unauthorized_when_disconnected_witness :
    (getPostsHandler sampleApi ⟨fun _ => 0, fun _ => "", fun _ => 0⟩
        disconnectedDashboard).1.status = 401
    ∧ (postReplyHandler sampleApi (some ⟨none, some ""⟩) disconnectedDashboard).1.status = 401
    ∧ (postReplyHandler sampleApi none disconnectedDashboard).1.status = 401 :=
  ⟨(handlers_unauthorized_when_disconnected sampleApi ⟨fun _ => 0, fun _ => "", fun _ => 0⟩
      (some ⟨none, some ""⟩) disconnectedDashboard rfl).1.1,
   (handlers_unauthorized_when_disconnected sampleApi ⟨fun _ => 0, fun _ => "", fun _ => 0⟩
      (some ⟨none, some ""⟩) disconnectedDashboard rfl).2.1,
   (handlers_unauthorized_when_disconnected sampleApi ⟨fun _ => 0, fun _ => "", fun _ => 0⟩
      none disconnectedDashboard rfl).2.1⟩

/-- The validation of lines 113-118 on a request that has a body: while connected, with
`replyText` missing or empty or `postUrl` missing or empty, the response is status 400
with error 'Reply text and post URL are required' and nothing is called (the state, trace
included, is unchanged). -/
theorem postReplyHandler_validates_parsed_body {β : Type} (api : BotApi β) (d : Dashboard β)
    (body : PostReplyBody) (hconn : d.isConnected = true)
    (hmissing : truthy body.replyText = false ∨ truthy body.postUrl = false) :
    (postReplyHandler api (some body) d).1
        = { status := 400, success := false,
            error := some "Reply text and post URL are required" }
    ∧ (postReplyHandler api (some body) d).2 = d
    ∧ (postReplyHandler api (some body) d).2.trace.filter Call.isPostReply
        = d.trace.filter Call.isPostReply := by
  rcases body with ⟨replyText, postUrl⟩
  cases replyText with
  | none => simp [postReplyHandler, hconn]
  | some r =>
    cases postUrl with
    | none => simp [postReplyHandler, hconn]
    | some u =>
      have h : (r == "" || u == "") = true := by
        rcases hmissing with h | h
        · simp [truthy] at h; simp [h]
        · simp [truthy] at h; simp [h]
      simp only [postReplyHandler, hconn, h]
      simp

/-- The `catch` of `/post-reply` shows the destructuring error as 'Failed to post reply'. -/
theorem userFriendlyError_undefinedBody :
    userFriendlyError undefinedBodyTypeError = "Failed to post reply" := by
  decide

/-- C3, the code at its failing input. `POST /post-reply` while connected, with no body at
all (`req.body` is `undefined`, so `replyText` and `postUrl` are both missing): the
destructuring of line 110 throws inside the `try`, and the response is status 500 with
error 'Failed to post reply' and the `TypeError` as details, not the status 400 with error
'Reply text and post URL are required' of the validation; nothing is called. -/
theorem postReplyHandler_no_body {β : Type} (api : BotApi β) (d : Dashboard β)
    (hconn : d.isConnected = true) :
    (postReplyHandler api none d).1
        = { status := 500, success := false, error := some "Failed to post reply",
            details := some undefinedBodyTypeError }
    ∧ (postReplyHandler api none d).1.status ≠ 400
    ∧ (postReplyHandler api none d).1.error ≠ some "Reply text and post URL are required"
    ∧ (postReplyHandler api none d).2 = d := by
  have hrun : postReplyHandler api none d
      = ({ status := 500, success := false, error := some "Failed to post reply",
           details := some undefinedBodyTypeError }, d) := by
    simp [postReplyHandler, hconn, userFriendlyError_undefinedBody]
  rw [hrun]
  refine ⟨rfl, ?_, ?_, rfl⟩
  · show (500 : Nat) ≠ 400
    decide
  · show some "Failed to post reply" ≠ some "Reply text and post URL are required"
    decide

/-- Witness for C3: the connected sample dashboard receives a request without a body. -/
theorem postReplyHandler_no_body_witness :
    (postReplyHandler sampleApi none sampleDashboard).1.status = 500
    ∧ (postReplyHandler sampleApi none sampleDashboard).2 = sampleDashboard :=
  ⟨congrArg Response.status (postReplyHandler_no_body sampleApi sampleDashboard rfl).1,
   (postReplyHandler_no_body sampleApi sampleDashboard rfl).2.2.2⟩

/-- C4. Real comments only: what `getCommentsForPost(postId)` returns is the empty list,
or it is exactly the non-empty array that `bot.getCommentsForTweet` resolved to when called
with the url of the first stored post whose id is `postId`. -/
theorem getCommentsForPost_real_only {β : Type} (api : BotApi β) (postId : String)
    (d : Dashboard β) :
    (getCommentsForPost api postId d).1 = []
    ∨ ∃ post b getComments b1,
        getCurrentPost d postId = some post
        ∧ d.bot = some b
        ∧ api.getCommentsForTweet = some getComments
        ∧ getComments post.url b = (.ok (.array (getCommentsForPost api postId d).1), b1)
        ∧ (getCommentsForPost api postId d).1 ≠ [] := by
  unfold getCommentsForPost
  cases hp : getCurrentPost d postId with
  | none => exact Or.inl rfl
  | some post =>
    cases hb : d.bot with
    | none => exact Or.inl rfl
    | some b =>
      cases hg : api.getCommentsForTweet with
      | none => exact Or.inl rfl
      | some getComments =>
        simp only []
        split
        · rcases hc : getComments post.url b with ⟨r, b1⟩
          rcases r with e | v
          · exact Or.inl rfl
          · cases v with
            | nullish => exact Or.inl rfl
            | notArray => exact Or.inl rfl
            | array items =>
              simp only []
              split
              · rename_i hlen
                refine Or.inr ⟨post, b, getComments, b1, rfl, rfl, rfl, hc, ?_⟩
                intro h
                have h0 : items = [] := h
                rw [h0] at hlen
                simp at hlen
              · exact Or.inl rfl
        · exact Or.inl rfl

/-- A call of `getPosts` that throws leaves `currentPosts` as it was: only a successful
`getPosts` stores posts. -/
theorem getPosts_error_keeps_posts {β : Type} (api : BotApi β) (env : Env)
    (d d1 : Dashboard β) (e : String) (h : getPosts api env d = (.error e, d1)) :
    d1.currentPosts = d.currentPosts := by
  unfold getPosts at h
  cases hb : d.bot with
  | none =>
    rw [hb] at h
    simp only [Prod.mk.injEq] at h
    rw [← h.2]
  | some b =>
    rw [hb] at h
    simp only [] at h
    have hstate : (getPostsCatch (getPostsTry api env b d)).2 = d1 := by rw [h]
    have hres : (getPostsCatch (getPostsTry api env b d)).1 = .error e := by rw [h]
    rcases ht : getPostsTry api env b d with ⟨r, d2⟩
    rw [ht] at hstate hres
    rcases r with e2 | posts
    · have hd : d2 = d1 := by
        simp only [getPostsCatch] at hstate
        split at hstate
        · exact hstate
        · split at hstate <;> exact hstate
      subst hd
      unfold getPostsTry at ht
      simp only [Dashboard.record] at ht
      split at ht
      · simp only [Prod.mk.injEq] at ht
        rw [← ht.2]
      · simp at ht
      · simp at ht
      · split at ht
        · simp only [Prod.mk.injEq] at ht
          rw [← ht.2]
        · simp at ht
    · simp [getPostsCatch] at hres

/-- C5. When `postId` is the id of no post of `currentPosts` (as for every `postId` while
`currentPosts` is still the constructor's empty list), `getCommentsForPost(postId)`
returns the empty list and calls nothing: the state, trace included, is unchanged, so
`bot.getCommentsForTweet` is not called. -/
theorem getCommentsForPost_unknown_post {β : Type} (api : BotApi β) (postId : String)
    (d : Dashboard β) (hid : ∀ post ∈ d.currentPosts, post.id ≠ postId) :
    (getCommentsForPost api postId d).1 = []
    ∧ (getCommentsForPost api postId d).2 = d
    ∧ (getCommentsForPost api postId d).2.trace.filter Call.isGetComments
        = d.trace.filter Call.isGetComments := by
  have hnone : getCurrentPost d postId = none := by
    unfold getCurrentPost
    rw [List.find?_eq_none]
    intro post hmem
    simpa using hid post hmem
  simp [getCommentsForPost, hnone]

/-- Witness for C5: the dashboard as the constructor leaves it, given a bot. -/
theorem getCommentsForPost_unknown_post_witness :
    (getCommentsForPost sampleApi "1234567890"
        { Dashboard.new Nat with bot := some 0 }).1 = []
    ∧ (getCommentsForPost sampleApi "1234567890"
        { Dashboard.new Nat with bot := some 0 }).2.trace = [] :=
  ⟨(getCommentsForPost_unknown_post sampleApi "1234567890"
      { Dashboard.new Nat with bot := some 0 } (by simp [Dashboard.new])).1,
   congrArg Dashboard.trace
     (getCommentsForPost_unknown_post sampleApi "1234567890"
       { Dashboard.new Nat with bot := some 0 } (by simp [Dashboard.new])).2.1⟩

/-! ## Theorems: the bot -/

/-- A wait that resolves records its event and nothing else. -/
theorem waitForTimeout_ok {σ δ : Type} (P : Page σ δ) (ms : Nat) (bot bot1 : Bot σ)
    (h : waitForTimeout P ms bot = (.ok (), bot1)) :
    bot1.events = bot.events ++ [Event.waitForTimeout ms] := by
  unfold waitForTimeout at h
  rcases hw : P.waitForTimeout ms bot.page with ⟨r, s⟩
  rw [hw] at h
  rcases r with e | u
  · simp at h
  · simp only [Prod.mk.injEq, true_and] at h
    rw [← h]
    rfl

/-- A wait that is thrown: the page rejected it, and no event is recorded. -/
theorem waitForTimeout_error {σ δ : Type} (P : Page σ δ) (ms : Nat) (bot bot1 : Bot σ)
    (e : String) (h : waitForTimeout P ms bot = (.error e, bot1)) :
    bot1.events = bot.events ∧ (P.waitForTimeout ms bot.page).1 = .error e := by
  unfold waitForTimeout at h
  rcases hw : P.waitForTimeout ms bot.page with ⟨r, s⟩
  rw [hw] at h
  rcases r with e1 | u
  · simp only [Prod.mk.injEq, Except.error.injEq] at h
    rw [← h.2, ← h.1]
    exact ⟨rfl, rfl⟩
  · simp at h

/-- On a page whose waits of `ms` resolve, the wait of the bot resolves. -/
theorem waitForTimeout_resolves {σ δ : Type} (P : Page σ δ) (ms : Nat)
    (hwait : ∀ s, ∃ s1, P.waitForTimeout ms s = (.ok (), s1)) (bot : Bot σ) :
    ∃ bot1, waitForTimeout P ms bot = (.ok (), bot1) := by
  rcases hwait bot.page with ⟨s1, hs⟩
  exact ⟨({ bot with page := s1 }).log (.waitForTimeout ms), by simp [waitForTimeout, hs]⟩

/-- The method `checkIfLoggedIn` appends one event, holding its result. -/
theorem checkIfLoggedIn_events {σ δ : Type} (P : Page σ δ) (bot : Bot σ) :
    (checkIfLoggedIn P bot).2.events
      = bot.events ++ [Event.checkIfLoggedIn (checkIfLoggedIn P bot).1] := by
  unfold checkIfLoggedIn
  simp only []
  split <;> rfl

/-- The method `detect2FA` appends one event, holding its result. -/
theorem detect2FA_events {σ δ : Type} (P : Page σ δ) (bot : Bot σ) :
    (detect2FA P bot).2.events = bot.events ++ [Event.detect2FA (detect2FA P bot).1] := by
  unfold detect2FA
  simp only []
  rfl

/-- The rounds of `k + 1` are one round, then those of `k`. -/
theorem waitingRounds_succ (k : Nat) :
    waitingRounds (k + 1) = stillWaiting ++ waitingRounds k := by
  simp [waitingRounds, List.replicate_succ]

/-- The loop of `waitFor2FACompletion` with `n` rounds left ends in one of three ways: it
throws the timeout after `n` rounds that all left the user waiting; or it returns `true`
in round `k` of them, the first in which `checkIfLoggedIn()` held or `detect2FA()` did
not; or, after `k < n` rounds that left the user waiting, the wait of the next round is
rejected and its error is thrown. -/
theorem waitFor2FALoop_spec {σ δ : Type} (P : Page σ δ) (n : Nat) (bot : Bot σ) :
    ((waitFor2FALoop P n bot).1 = .error "2FA timeout - please complete within 5 minutes"
      ∧ (waitFor2FALoop P n bot).2.events = bot.events ++ waitingRounds n)
    ∨ (∃ k, 1 ≤ k ∧ k ≤ n ∧ (waitFor2FALoop P n bot).1 = .ok true
        ∧ ((waitFor2FALoop P n bot).2.events
              = bot.events ++ waitingRounds (k - 1)
                ++ [Event.waitForTimeout 5000, Event.checkIfLoggedIn true]
          ∨ (waitFor2FALoop P n bot).2.events
              = bot.events ++ waitingRounds (k - 1)
                ++ [Event.waitForTimeout 5000, Event.checkIfLoggedIn false,
                    Event.detect2FA false]))
    ∨ ∃ k e, k < n ∧ (waitFor2FALoop P n bot).1 = .error e
        ∧ (waitFor2FALoop P n bot).2.events = bot.events ++ waitingRounds k
        ∧ ∃ s, (P.waitForTimeout 5000 s).1 = .error e := by
  induction n generalizing bot with
  | zero =>
    left
    simp [waitFor2FALoop, waitingRounds]
  | succ n ih =>
    unfold waitFor2FALoop
    rcases hwait : waitForTimeout P 5000 bot with ⟨w, bot1⟩
    rcases w with e | u
    · right; right
      have hw := waitForTimeout_error P 5000 bot bot1 e hwait
      refine ⟨0, e, by omega, rfl, ?_, bot.page, hw.2⟩
      simp [hw.1, waitingRounds]
    · have hw := waitForTimeout_ok P 5000 bot bot1 hwait
      simp only []
      have hc := checkIfLoggedIn_events P bot1
      rcases hcheck : checkIfLoggedIn P bot1 with ⟨c, bot2⟩
      rw [hcheck] at hc
      simp only [] at hc
      cases c with
      | true =>
        right; left
        refine ⟨1, le_refl 1, by omega, rfl, Or.inl ?_⟩
        simp [hc, hw, waitingRounds]
      | false =>
        simp only []
        have hd := detect2FA_events P bot2
        rcases hdet : detect2FA P bot2 with ⟨t, bot3⟩
        rw [hdet] at hd
        simp only [] at hd
        cases t with
        | false =>
          right; left
          refine ⟨1, le_refl 1, by omega, rfl, Or.inr ?_⟩
          simp [hd, hc, hw, waitingRounds]
        | true =>
          simp only []
          have hev : bot3.events = bot.events ++ stillWaiting := by
            simp [hd, hc, hw, stillWaiting]
          rcases ih bot3 with ⟨herr, hevents⟩ | ⟨k, hk1, hkn, hok, hevents⟩
            | ⟨k, e, hk, herr, hevents, hrej⟩
          · left
            refine ⟨herr, ?_⟩
            rw [hevents, hev, waitingRounds_succ, List.append_assoc]
          · right; left
            refine ⟨k + 1, by omega, by omega, hok, ?_⟩
            have hk : k + 1 - 1 = (k - 1) + 1 := by omega
            rw [hk, waitingRounds_succ]
            rcases hevents with h | h
            · left
              rw [h, hev]
              simp [List.append_assoc]
            · right
              rw [h, hev]
              simp [List.append_assoc]
          · right; right
            refine ⟨k + 1, e, by omega, herr, ?_, hrej⟩
            rw [hevents, hev, waitingRounds_succ, List.append_assoc]

/-- On a page whose 5000 ms waits resolve, the loop of `waitFor2FACompletion` throws
nothing but the timeout. -/
theorem waitFor2FALoop_resolving {σ δ : Type} (P : Page σ δ)
    (hwait : ∀ s, ∃ s1, P.waitForTimeout 5000 s = (.ok (), s1)) (n : Nat) (bot : Bot σ) :
    ((waitFor2FALoop P n bot).1 = .error "2FA timeout - please complete within 5 minutes"
      ∧ (waitFor2FALoop P n bot).2.events = bot.events ++ waitingRounds n)
    ∨ ∃ k, 1 ≤ k ∧ k ≤ n ∧ (waitFor2FALoop P n bot).1 = .ok true
        ∧ ((waitFor2FALoop P n bot).2.events
              = bot.events ++ waitingRounds (k - 1)
                ++ [Event.waitForTimeout 5000, Event.checkIfLoggedIn true]
          ∨ (waitFor2FALoop P n bot).2.events
              = bot.events ++ waitingRounds (k - 1)
                ++ [Event.waitForTimeout 5000, Event.checkIfLoggedIn false,
                    Event.detect2FA false]) := by
  rcases waitFor2FALoop_spec P n bot with h | h | ⟨k, e, _, _, _, s, hrej⟩
  · exact Or.inl h
  · exact Or.inr h
  · rcases hwait s with ⟨s1, hs⟩
    rw [hs] at hrej
    cases hrej

/-- The polls of two runs of events add up. -/
theorem pollCount_append (xs ys : List Event) :
    pollCount (xs ++ ys) = pollCount xs + pollCount ys := by
  induction xs with
  | nil => simp [pollCount]
  | cons x xs ih => cases x <;> (simp [pollCount, ih]; try omega)

/-- The waits of two runs of events add up. -/
theorem waitedMs_append (xs ys : List Event) :
    waitedMs (xs ++ ys) = waitedMs xs + waitedMs ys := by
  induction xs with
  | nil => simp [waitedMs]
  | cons x xs ih => cases x <;> (simp [waitedMs, ih]; try omega)

/-- The rounds of `k` make `k` polls. -/
theorem pollCount_waitingRounds (k : Nat) : pollCount (waitingRounds k) = k := by
  induction k with
  | zero => rfl
  | succ k ih =>
    rw [waitingRounds_succ, pollCount_append, ih]
    simp [stillWaiting, pollCount]
    omega

/-- The rounds of `k` wait 5000 ms each. -/
theorem waitedMs_waitingRounds (k : Nat) : waitedMs (waitingRounds k) = 5000 * k := by
  induction k with
  | zero => rfl
  | succ k ih =>
    rw [waitingRounds_succ, waitedMs_append, ih]
    simp [stillWaiting, waitedMs]
    omega

/-- The rounds of `k + 1` end with `detect2FA()` true. -/
theorem waitingRounds_getLast (k : Nat) :
    (waitingRounds (k + 1)).getLast? = some (Event.detect2FA true) := by
  induction k with
  | zero => rfl
  | succ k ih =>
    rw [waitingRounds_succ, List.getLast?_append, ih]
    rfl

/-- Counterexample to C7. On a page that rejects the wait (the window was closed),
`waitFor2FACompletion` makes no poll, so it is not the case that 60 polls found
`checkIfLoggedIn()` false and `detect2FA()` true; yet it does not return `true`: it throws
the error of the wait, which is not the timeout error either. -/
theorem waitFor2FACompletion_rejected_wait_counterexample :
    (waitFor2FACompletion closedPage freshBot).1
        = .error "page.waitForTimeout: Target page, context or browser has been closed"
    ∧ (waitFor2FACompletion closedPage freshBot).1 ≠ .ok true
    ∧ (waitFor2FACompletion closedPage freshBot).1
        ≠ .error "2FA timeout - please complete within 5 minutes"
    ∧ (waitFor2FACompletion closedPage freshBot).2.events = []
    ∧ pollCount (waitFor2FACompletion closedPage freshBot).2.events = 0 := by
  have hrun : (waitFor2FACompletion closedPage freshBot).1
      = .error "page.waitForTimeout: Target page, context or browser has been closed" := rfl
  refine ⟨hrun, ?_, ?_, rfl, rfl⟩
  · rw [hrun]
    intro h
    cases h
  · rw [hrun]
    intro h
    injection h with h1
    revert h1
    decide

/-- C7, amended. `waitFor2FACompletion` gives the user 5 minutes, provided every
`page.waitForTimeout(5000)` resolves. Then the events it adds are such that: it throws
'2FA timeout - please complete within 5 minutes' if and only if they are 60 rounds of a
5000 ms wait, `checkIfLoggedIn()` false, `detect2FA()` true, which is 60 polls and
60 x 5000 ms = 300000 ms of waiting; otherwise it returns `true` having made exactly `k`
polls, `1 <= k <= 60`, each preceded by a 5000 ms wait, the first `k - 1` with
`checkIfLoggedIn()` false and `detect2FA()` true and the `k`-th with `checkIfLoggedIn()`
true, or with it false and `detect2FA()` false. A wait that the page rejects is not
caught: whatever the page does, the method ends in the timeout after 60 such rounds, or in
`true` at poll `k`, or, after fewer than 60 such rounds, in the error of a rejected wait;
a rejected first wait is thrown at once. -/
theorem waitFor2FACompletion_five_minutes {σ δ : Type} (P : Page σ δ) (bot : Bot σ) :
    ((∀ s, ∃ s1, P.waitForTimeout 5000 s = (.ok (), s1)) →
      ∃ added, (waitFor2FACompletion P bot).2.events = bot.events ++ added
        ∧ pollCount added ≤ 60
        ∧ waitedMs added = 5000 * pollCount added
        ∧ ((waitFor2FACompletion P bot).1
              = .error "2FA timeout - please complete within 5 minutes"
            ↔ added = waitingRounds 60)
        ∧ ((waitFor2FACompletion P bot).1
              = .error "2FA timeout - please complete within 5 minutes"
            → pollCount added = 60 ∧ waitedMs added = 300000)
        ∧ ((waitFor2FACompletion P bot).1
              ≠ .error "2FA timeout - please complete within 5 minutes"
            → ∃ k, 1 ≤ k ∧ k ≤ 60 ∧ (waitFor2FACompletion P bot).1 = .ok true
                ∧ pollCount added = k
                ∧ (added = waitingRounds (k - 1)
                      ++ [Event.waitForTimeout 5000, Event.checkIfLoggedIn true]
                  ∨ added = waitingRounds (k - 1)
                      ++ [Event.waitForTimeout 5000, Event.checkIfLoggedIn false,
                          Event.detect2FA false])))
    ∧ (∀ e s, P.waitForTimeout 5000 bot.page = (.error e, s) →
        waitFor2FACompletion P bot = (.error e, { bot with page := s }))
    ∧ (((waitFor2FACompletion P bot).1
            = .error "2FA timeout - please complete within 5 minutes"
          ∧ (waitFor2FACompletion P bot).2.events = bot.events ++ waitingRounds 60)
      ∨ (∃ k, 1 ≤ k ∧ k ≤ 60 ∧ (waitFor2FACompletion P bot).1 = .ok true
          ∧ ((waitFor2FACompletion P bot).2.events
                = bot.events ++ waitingRounds (k - 1)
                  ++ [Event.waitForTimeout 5000, Event.checkIfLoggedIn true]
            ∨ (waitFor2FACompletion P bot).2.events
                = bot.events ++ waitingRounds (k - 1)
                  ++ [Event.waitForTimeout 5000, Event.checkIfLoggedIn false,
                      Event.detect2FA false]))
      ∨ ∃ k e, k < 60 ∧ (waitFor2FACompletion P bot).1 = .error e
          ∧ (waitFor2FACompletion P bot).2.events = bot.events ++ waitingRounds k
          ∧ ∃ s, (P.waitForTimeout 5000 s).1 = .error e) := by
  refine ⟨?_, ?_, waitFor2FALoop_spec P 60 bot⟩
  · intro hwait
    unfold waitFor2FACompletion maxAttempts
    rcases waitFor2FALoop_resolving P hwait 60 bot with
      ⟨herr, hev⟩ | ⟨k, hk1, hk60, hok, hev⟩
    · refine ⟨waitingRounds 60, hev, ?_, ?_, ?_, ?_, ?_⟩
      · rw [pollCount_waitingRounds]
      · rw [pollCount_waitingRounds, waitedMs_waitingRounds]
      · exact ⟨fun _ => rfl, fun _ => herr⟩
      · intro _
        rw [pollCount_waitingRounds, waitedMs_waitingRounds]
        exact ⟨rfl, rfl⟩
      · intro h
        exact absurd herr h
    · have hne : (waitFor2FALoop P 60 bot).1
          ≠ .error "2FA timeout - please complete within 5 minutes" := by
        rw [hok]
        intro h
        cases h
      rcases hev with hev | hev
      · have hcount : pollCount (waitingRounds (k - 1)
            ++ [Event.waitForTimeout 5000, Event.checkIfLoggedIn true]) = k := by
          rw [pollCount_append, pollCount_waitingRounds]
          simp [pollCount]
          omega
        have hwaited : waitedMs (waitingRounds (k - 1)
            ++ [Event.waitForTimeout 5000, Event.checkIfLoggedIn true]) = 5000 * k := by
          rw [waitedMs_append, waitedMs_waitingRounds]
          simp [waitedMs]
          omega
        refine ⟨waitingRounds (k - 1)
          ++ [Event.waitForTimeout 5000, Event.checkIfLoggedIn true], ?_, ?_, ?_, ?_, ?_, ?_⟩
        · rw [hev, List.append_assoc]
        · rw [hcount]; exact hk60
        · rw [hcount, hwaited]
        · constructor
          · intro h
            exact absurd h hne
          · intro h
            have hlast := congrArg List.getLast? h
            rw [waitingRounds_getLast 59] at hlast
            simp at hlast
        · intro h
          exact absurd h hne
        · intro _
          exact ⟨k, hk1, hk60, hok, hcount, Or.inl rfl⟩
      · have hcount : pollCount (waitingRounds (k - 1)
            ++ [Event.waitForTimeout 5000, Event.checkIfLoggedIn false,
                Event.detect2FA false]) = k := by
          rw [pollCount_append, pollCount_waitingRounds]
          simp [pollCount]
          omega
        have hwaited : waitedMs (waitingRounds (k - 1)
            ++ [Event.waitForTimeout 5000, Event.checkIfLoggedIn false,
                Event.detect2FA false]) = 5000 * k := by
          rw [waitedMs_append, waitedMs_waitingRounds]
          simp [waitedMs]
          omega
        refine ⟨waitingRounds (k - 1)
          ++ [Event.waitForTimeout 5000, Event.checkIfLoggedIn false,
              Event.detect2FA false], ?_, ?_, ?_, ?_, ?_, ?_⟩
        · rw [hev, List.append_assoc]
        · rw [hcount]; exact hk60
        · rw [hcount, hwaited]
        · constructor
          · intro h
            exact absurd h hne
          · intro h
            have hlast := congrArg List.getLast? h
            rw [waitingRounds_getLast 59] at hlast
            simp at hlast
        · intro h
          exact absurd h hne
        · intro _
          exact ⟨k, hk1, hk60, hok, hcount, Or.inr rfl⟩
  · intro e s h
    simp [waitFor2FACompletion, maxAttempts, waitFor2FALoop, waitForTimeout, h]

/-- A sequence of two steps that succeeds: both steps succeeded. -/
theorem andThen_ok {σ α γ : Type} (r : Except String α × Bot σ)
    (k : α → Bot σ → Except String γ × Bot σ) (v : γ) (bot : Bot σ)
    (h : andThen r k = (.ok v, bot)) :
    ∃ a bot0, r = (.ok a, bot0) ∧ k a bot0 = (.ok v, bot) := by
  rcases r with ⟨_ | a, bot0⟩
  · simp [andThen] at h
  · exact ⟨a, bot0, rfl, h⟩

/-- A sequence of two steps whose first step fails: it fails with that error. -/
theorem andThen_error {σ α γ : Type} (e : String) (bot : Bot σ)
    (k : α → Bot σ → Except String γ × Bot σ) :
    andThen ((.error e, bot) : Except String α × Bot σ) k = (.error e, bot) := rfl

/-- The last step of the login succeeds with `true` only after `checkIfLoggedIn()`
returned `true`. -/
theorem verifyLogin_true {σ δ : Type} (P : Page σ δ) (bot bot1 : Bot σ)
    (h : verifyLogin P bot = (.ok true, bot1)) :
    ∃ before, bot1.events = before ++ [Event.checkIfLoggedIn true] := by
  unfold verifyLogin at h
  rcases andThen_ok _ _ _ _ h with ⟨_, bot0, _, h0⟩
  have hc := checkIfLoggedIn_events P bot0
  rcases hcheck : checkIfLoggedIn P bot0 with ⟨c, bot2⟩
  rw [hcheck] at h0 hc
  cases c with
  | true =>
    simp only [Prod.mk.injEq, true_and] at h0
    rw [← h0]
    exact ⟨_, hc⟩
  | false => simp at h0

/-- The selector loop of `enterUsername` and `enterPassword` throws `failure` when every
`waitForSelector` rejects. -/
theorem enterWith_no_input {σ δ : Type} (P : Page σ δ) (timeout : Nat)
    (value button failure : String)
    (hnone : ∀ selector ms s, ∃ e, (P.waitForSelector selector ms s).1 = .error e)
    (selectors : List String) (s : σ) :
    (enterWith P timeout value button failure selectors s).1 = .error failure := by
  induction selectors generalizing s with
  | nil => rfl
  | cons selector rest ih =>
    unfold enterWith
    have hround : (tryEnter P selector timeout value button s).1 = false := by
      unfold tryEnter
      rcases hnone selector timeout s with ⟨e, he⟩
      rcases hw : P.waitForSelector selector timeout s with ⟨r, s1⟩
      rw [hw] at he
      simp only [] at he
      rw [he]
    rcases ht : tryEnter P selector timeout value button s with ⟨r, s1⟩
    rw [ht] at hround
    simp only [] at hround
    rw [hround]
    exact ih s1

/-- A page call run on the bot's page has the result of the call. -/
theorem onPage_result {σ α : Type} (f : σ → Except String α × σ) (bot : Bot σ) :
    (onPage f bot).1 = (f bot.page).1 := rfl

/-- C8. `loginWith2FA` never throws: it is a function to a boolean, and every failure of
one of its steps gives `false`. Step by step, from the first to the last: when the step
throws (the navigation to /home or to the login page rejecting, a wait rejecting,
`enterUsername` or `enterPassword` throwing, `handlePhoneVerification` throwing, the 2FA
step throwing, the last wait rejecting) the result is `false`, in the state the throw
left; when the first `checkIfLoggedIn()` returns `true` the result is `true`; when every
step succeeds the result is what the final verification gives. The steps that throw by
themselves do so as named: `enterUsername` and `enterPassword` throw 'Could not find
username input' and 'Could not find password input' when no input is found, and the 2FA
step throws what `waitFor2FACompletion` throws, the 2FA timeout. Every error of the `try`
gives `false`; and the result is `true` only when the last thing done was a call of
`checkIfLoggedIn()` that returned `true`. -/
theorem loginWith2FA_never_throws {σ δ : Type} (P : Page σ δ) (username password : String)
    (bot : Bot σ) :
    ((∀ e b, onPage (P.goto "https://twitter.com/home" {}) bot = (.error e, b)
        → loginWith2FA P username password bot = (false, b))
      ∧ ∀ b1, onPage (P.goto "https://twitter.com/home" {}) bot = (.ok (), b1) →
      (∀ e b, waitForTimeout P 2000 b1 = (.error e, b)
        → loginWith2FA P username password bot = (false, b))
      ∧ ∀ b2, waitForTimeout P 2000 b1 = (.ok (), b2) →
      (∀ b, checkIfLoggedIn P b2 = (true, b)
        → loginWith2FA P username password bot = (true, b))
      ∧ ∀ b3, checkIfLoggedIn P b2 = (false, b3) →
      (∀ e b, onPage (P.goto "https://twitter.com/i/flow/login" {}) b3 = (.error e, b)
        → loginWith2FA P username password bot = (false, b))
      ∧ ∀ b4, onPage (P.goto "https://twitter.com/i/flow/login" {}) b3 = (.ok (), b4) →
      (∀ e b, waitForTimeout P 3000 b4 = (.error e, b)
        → loginWith2FA P username password bot = (false, b))
      ∧ ∀ b5, waitForTimeout P 3000 b4 = (.ok (), b5) →
      (∀ e b, enterUsername P username b5 = (.error e, b)
        → loginWith2FA P username password bot = (false, b))
      ∧ ∀ r6 b6, enterUsername P username b5 = (.ok r6, b6) →
      (∀ e b, waitForTimeout P 3000 b6 = (.error e, b)
        → loginWith2FA P username password bot = (false, b))
      ∧ ∀ b7, waitForTimeout P 3000 b6 = (.ok (), b7) →
      (∀ e b, handlePhoneVerification P b7 = (.error e, b)
        → loginWith2FA P username password bot = (false, b))
      ∧ ∀ r8 b8, handlePhoneVerification P b7 = (.ok r8, b8) →
      (∀ e b, enterPassword P password b8 = (.error e, b)
        → loginWith2FA P username password bot = (false, b))
      ∧ ∀ r9 b9, enterPassword P password b8 = (.ok r9, b9) →
      (∀ e b, handle2FA P b9 = (.error e, b)
        → loginWith2FA P username password bot = (false, b))
      ∧ ∀ b10, handle2FA P b9 = (.ok (), b10) →
      (∀ e b, verifyLogin P b10 = (.error e, b)
        → loginWith2FA P username password bot = (false, b))
      ∧ (∀ r b, verifyLogin P b10 = (.ok r, b)
        → loginWith2FA P username password bot = (r, b)))
    ∧ ((∀ selector ms s, ∃ e, (P.waitForSelector selector ms s).1 = .error e) →
        ∀ b, (enterUsername P username b).1 = .error "Could not find username input"
          ∧ (enterPassword P password b).1 = .error "Could not find password input")
    ∧ (∀ b b0 b1 e b2, waitForTimeout P 3000 b = (.ok (), b0) → detect2FA P b0 = (true, b1)
        → waitFor2FACompletion P b1 = (.error e, b2) → handle2FA P b = (.error e, b2))
    ∧ (∀ e b, loginTry P username password bot = (.error e, b)
        → loginWith2FA P username password bot = (false, b))
    ∧ ((loginWith2FA P username password bot).1 = true
        → ∃ before, (loginWith2FA P username password bot).2.events
            = before ++ [Event.checkIfLoggedIn true]) := by
  refine ⟨⟨?_, ?_⟩, ?_, ?_, ?_, ?_⟩
  · intro e b h
    simp [loginWith2FA, loginTry, andThen, h]
  · intro b1 h1
    refine ⟨?_, ?_⟩
    · intro e b h
      simp [loginWith2FA, loginTry, andThen, h1, h]
    intro b2 h2
    refine ⟨?_, ?_⟩
    · intro b h
      simp [loginWith2FA, loginTry, andThen, h1, h2, h]
    intro b3 h3
    refine ⟨?_, ?_⟩
    · intro e b h
      simp [loginWith2FA, loginTry, loginFlow, andThen, h1, h2, h3, h]
    intro b4 h4
    refine ⟨?_, ?_⟩
    · intro e b h
      simp [loginWith2FA, loginTry, loginFlow, andThen, h1, h2, h3, h4, h]
    intro b5 h5
    refine ⟨?_, ?_⟩
    · intro e b h
      simp [loginWith2FA, loginTry, loginFlow, andThen, h1, h2, h3, h4, h5, h]
    intro r6 b6 h6
    refine ⟨?_, ?_⟩
    · intro e b h
      simp [loginWith2FA, loginTry, loginFlow, andThen, h1, h2, h3, h4, h5, h6, h]
    intro b7 h7
    refine ⟨?_, ?_⟩
    · intro e b h
      simp [loginWith2FA, loginTry, loginFlow, andThen, h1, h2, h3, h4, h5, h6, h7, h]
    intro r8 b8 h8
    refine ⟨?_, ?_⟩
    · intro e b h
      simp [loginWith2FA, loginTry, loginFlow, andThen, h1, h2, h3, h4, h5, h6, h7, h8, h]
    intro r9 b9 h9
    refine ⟨?_, ?_⟩
    · intro e b h
      simp [loginWith2FA, loginTry, loginFlow, andThen, h1, h2, h3, h4, h5, h6, h7, h8, h9, h]
    intro b10 h10
    refine ⟨?_, ?_⟩
    · intro e b h
      simp [loginWith2FA, loginTry, loginFlow, andThen, h1, h2, h3, h4, h5, h6, h7, h8, h9,
        h10, h]
    · intro r b h
      simp [loginWith2FA, loginTry, loginFlow, andThen, h1, h2, h3, h4, h5, h6, h7, h8, h9,
        h10, h]
  · intro hnone b
    constructor
    · unfold enterUsername
      rw [onPage_result]
      exact enterWith_no_input P 3000 username "text=Next" "Could not find username input"
        hnone _ b.page
    · unfold enterPassword
      rw [onPage_result]
      exact enterWith_no_input P 5000 password "text=Log in" "Could not find password input"
        hnone _ b.page
  · intro b b0 b1 e b2 hw hd h2fa
    simp [handle2FA, andThen, hw, hd, h2fa]
  · intro e b h
    simp [loginWith2FA, h]
  · intro htrue
    unfold loginWith2FA at htrue ⊢
    rcases htry : loginTry P username password bot with ⟨r, bot1⟩
    rw [htry] at htrue
    rcases r with e | result
    · simp at htrue
    · simp only [] at htrue ⊢
      rw [htrue] at htry
      unfold loginTry at htry
      rcases andThen_ok _ _ _ _ htry with ⟨_, b1, _, h1⟩
      rcases andThen_ok _ _ _ _ h1 with ⟨_, b2, _, h2⟩
      have hc := checkIfLoggedIn_events P b2
      rcases hcheck : checkIfLoggedIn P b2 with ⟨c, b3⟩
      rw [hcheck] at h2 hc
      cases c with
      | true =>
        simp only [Prod.mk.injEq, true_and] at h2
        rw [← h2]
        exact ⟨_, hc⟩
      | false =>
        simp only [] at h2
        unfold loginFlow at h2
        rcases andThen_ok _ _ _ _ h2 with ⟨_, b4, _, h4⟩
        rcases andThen_ok _ _ _ _ h4 with ⟨_, b5, _, h5⟩
        rcases andThen_ok _ _ _ _ h5 with ⟨_, b6, _, h6⟩
        rcases andThen_ok _ _ _ _ h6 with ⟨_, b7, _, h7⟩
        rcases andThen_ok _ _ _ _ h7 with ⟨_, b8, _, h8⟩
        rcases andThen_ok _ _ _ _ h8 with ⟨_, b9, _, h9⟩
        rcases andThen_ok _ _ _ _ h9 with ⟨_, b10, _, h10⟩
        exact verifyLogin_true P b10 bot1 h10

/-- The navigation of `getCommentsForTweet` throws when `goto` rejects under all three
strategies. -/
theorem navigateToTweet_fails {σ : Type} (P : Page σ ReplyDom) (tweetUrl : String)
    (bot : Bot σ)
    (hnav : ∀ options s, ∃ e, (P.goto tweetUrl options s).1 = .error e) :
    ∃ e, (navigateToTweet P tweetUrl bot).1 = .error e := by
  rcases hnav { waitUntil := some "load", timeout := some 20000 } bot.page with ⟨e1, h1⟩
  rcases hg1 : P.goto tweetUrl { waitUntil := some "load", timeout := some 20000 } bot.page
    with ⟨r1, s1⟩
  rw [hg1] at h1
  simp only [] at h1
  subst h1
  rcases hnav { waitUntil := some "domcontentloaded", timeout := some 25000 } s1 with ⟨e2, h2⟩
  rcases hg2 : P.goto tweetUrl
    { waitUntil := some "domcontentloaded", timeout := some 25000 } s1 with ⟨r2, s2⟩
  rw [hg2] at h2
  simp only [] at h2
  subst h2
  rcases hnav { timeout := some 15000 } s2 with ⟨e3, h3⟩
  rcases hg3 : P.goto tweetUrl { timeout := some 15000 } s2 with ⟨r3, s3⟩
  rw [hg3] at h3
  simp only [] at h3
  subst h3
  refine ⟨"Failed to navigate to tweet: " ++ e3, ?_⟩
  simp [navigateToTweet, onPage, hg1, hg2, hg3]

/-- The wait for content of `getCommentsForTweet` absorbs the failures of the selector
waits: on a page whose 3000 ms waits resolve, it succeeds. -/
theorem waitForTweetContent_resolves {σ : Type} (P : Page σ ReplyDom)
    (hwait : ∀ s, ∃ s1, P.waitForTimeout 3000 s = (.ok (), s1)) (bot : Bot σ) :
    ∃ bot1, waitForTweetContent P bot = (.ok (), bot1) := by
  unfold waitForTweetContent
  rcases h1 : onPage (P.waitForSelector "[data-testid=\"tweet\"]" 10000) bot with ⟨r1, b1⟩
  rcases r1 with e1 | u1
  · simp only []
    rcases h2 : onPage (P.waitForSelector "article, [role=\"article\"]" 8000) b1
      with ⟨r2, b2⟩
    rcases r2 with e2 | u2
    · exact waitForTimeout_resolves P 3000 hwait b2
    · exact ⟨b2, rfl⟩
  · exact ⟨b1, rfl⟩

/-- C6. `getCommentsForTweet` never throws: it is a function to a list, for every
`tweetUrl` and every behaviour of the page. Whenever its `try` raises an error the result
is the empty list; so it is when navigation fails under all three strategies, when the
extracting `evaluate` rejects, and when the wait for content throws. When navigation and
the wait for content succeed and that `evaluate` resolves, the result is what the in-page
function extracts, whether or not the scroll in between failed; and the wait for content
succeeds whether or not the selector waits failed, as long as its last delay resolves. -/
theorem getCommentsForTweet_never_throws {σ : Type} (P : Page σ ReplyDom) (env : Env)
    (tweetUrl : String) (bot : Bot σ) :
    (∀ e bot1, getCommentsForTweetTry P env tweetUrl bot = (.error e, bot1)
        → getCommentsForTweet P env tweetUrl bot = ([], bot1))
    ∧ ((∀ options s, ∃ e, (P.goto tweetUrl options s).1 = .error e)
        → (getCommentsForTweet P env tweetUrl bot).1 = [])
    ∧ ((∀ s, ∃ e, (P.queryReplies s).1 = .error e)
        → (getCommentsForTweet P env tweetUrl bot).1 = [])
    ∧ (∀ bot1 bot2 dom bot3, navigateToTweet P tweetUrl bot = (.ok (), bot1)
        → waitForTweetContent P bot1 = (.ok (), bot2)
        → onPage P.queryReplies (scrollForReplies P bot2) = (.ok dom, bot3)
        → getCommentsForTweet P env tweetUrl bot = (extractReplies env dom, bot3))
    ∧ (∀ bot1 e bot2, navigateToTweet P tweetUrl bot = (.ok (), bot1)
        → waitForTweetContent P bot1 = (.error e, bot2)
        → getCommentsForTweet P env tweetUrl bot = ([], bot2))
    ∧ ((∀ s, ∃ s1, P.waitForTimeout 3000 s = (.ok (), s1))
        → ∀ b, ∃ b1, waitForTweetContent P b = (.ok (), b1)) := by
  refine ⟨?_, ?_, ?_, ?_, ?_, ?_⟩
  · intro e bot1 h
    simp [getCommentsForTweet, h]
  · intro hnav
    rcases navigateToTweet_fails P tweetUrl bot hnav with ⟨e, he⟩
    rcases hn : navigateToTweet P tweetUrl bot with ⟨r, bot1⟩
    rw [hn] at he
    simp only [] at he
    subst he
    simp [getCommentsForTweet, getCommentsForTweetTry, hn, andThen]
  · intro hquery
    unfold getCommentsForTweet getCommentsForTweetTry
    rcases hn : navigateToTweet P tweetUrl bot with ⟨r, bot1⟩
    rcases r with e | u
    · rfl
    · simp only [andThen]
      rcases hc : waitForTweetContent P bot1 with ⟨rc, bot2⟩
      rcases rc with e | u
      · rfl
      · simp only []
        rcases hquery (scrollForReplies P bot2).page with ⟨e, he⟩
        unfold onPage
        rcases hq : P.queryReplies (scrollForReplies P bot2).page with ⟨r1, s1⟩
        rw [hq] at he
        simp only [] at he
        subst he
        rfl
  · intro bot1 bot2 dom bot3 hn hc hq
    simp [getCommentsForTweet, getCommentsForTweetTry, hn, hc, andThen, hq]
  · intro bot1 e bot2 hn hc
    simp [getCommentsForTweet, getCommentsForTweetTry, hn, hc, andThen]
  · intro hwait b
    exact waitForTweetContent_resolves P hwait b

/-! ## Theorems: generating a reply -/

/-- C9. `generateReply` validates its credentials before any network request: when
`apiKey` is missing or empty it throws 'DeepSeek API key is required. Please enter your
API key in the settings.', whatever `instructions` is; otherwise, when `instructions` is
missing or empty, it throws 'AI instructions are required. Please enter instructions for
how the AI should reply.'; in both cases the state, trace included, is unchanged, so
`fetch` is not called. -/
theorem generateReply_validates_credentials {ν : Type} (network : Network ν)
    (originalPost : Option PostArg) (comment : Option CommentArg)
    (apiKey instructions : Option String) (w : NetState ν) :
    (truthy apiKey = false →
      generateReply network originalPost comment apiKey instructions w
        = (.error "DeepSeek API key is required. Please enter your API key in the settings.",
           w))
    ∧ (truthy apiKey = true → truthy instructions = false →
      generateReply network originalPost comment apiKey instructions w
        = (.error "AI instructions are required. Please enter instructions for how the AI should reply.",
           w))
    ∧ (truthy apiKey = false ∨ truthy instructions = false →
      (generateReply network originalPost comment apiKey instructions w).2.trace.filter
          Call.isFetch = w.trace.filter Call.isFetch) := by
  refine ⟨?_, ?_, ?_⟩
  · intro hk
    simp [generateReply, hk]
  · intro hk hi
    simp [generateReply, hk, hi]
  · intro h
    by_cases hk : truthy apiKey = true
    · rcases h with h | h
      · rw [hk] at h; cases h
      · simp [generateReply, hk, h]
    · have hk0 : truthy apiKey = false := by simpa using hk
      simp [generateReply, hk0]

/-- C10. A call of `generateReply` with non-empty `apiKey` and `instructions` in which
`fetch` resolves to a response that is not OK: with status 401 it throws exactly
'Invalid DeepSeek API key. Please check your API key.' and with status 429 exactly
'DeepSeek API rate limit exceeded. Please try again later.', whatever `response.json()`
gives, a rejection (the body is not JSON) included. -/
theorem generateReply_status_errors {ν : Type} (network : Network ν)
    (postText commentText apiKey instructions : String) (author : Option String)
    (w : NetState ν) (response : ApiResponse) (n1 : ν)
    (hkey : apiKey ≠ "") (hinstr : instructions ≠ "")
    (hfetch : network.fetch
        (buildRequest apiKey (buildPrompt postText author commentText instructions)) w.net
        = (.ok response, n1))
    (hok : response.ok = false) :
    (response.status = 401 →
      (generateReply network (some ⟨some postText⟩) (some ⟨author, some commentText⟩)
          (some apiKey) (some instructions) w).1
        = .error "Invalid DeepSeek API key. Please check your API key.")
    ∧ (response.status = 429 →
      (generateReply network (some ⟨some postText⟩) (some ⟨author, some commentText⟩)
          (some apiKey) (some instructions) w).1
        = .error "DeepSeek API rate limit exceeded. Please try again later.") := by
  have hk : truthy (some apiKey) = true := by simpa [truthy] using hkey
  have hi : truthy (some instructions) = true := by simpa [truthy] using hinstr
  have hrun : generateReply network (some ⟨some postText⟩) (some ⟨author, some commentText⟩)
      (some apiKey) (some instructions) w
      = generateReplyCatch (.error (apiErrorMessage response),
          { net := n1, trace := w.trace ++ [Call.fetch "https://api.deepseek.com/v1/chat/completions"] }) := by
    simp only [generateReply, hk, hi, generateReplyTry, Option.getD_some]
    simp [hfetch, hok]
    rfl
  rw [hrun]
  constructor
  · intro h401
    have hmsg : apiErrorMessage response
        = "Invalid DeepSeek API key. Please check your API key." := by
      simp [apiErrorMessage, h401]
    rw [hmsg]
    simp only [generateReplyCatch]
    rw [if_neg (by decide)]
  · intro h429
    have hmsg : apiErrorMessage response
        = "DeepSeek API rate limit exceeded. Please try again later." := by
      simp [apiErrorMessage, h429]
    rw [hmsg]
    simp only [generateReplyCatch]
    rw [if_neg (by decide)]

/-! ## Witnesses on concrete pages and networks -/

/-- Witness for C6: with no navigation possible the result is the empty list; with the
selector waits and the scroll failing but the extraction succeeding, the one reply of the
document is returned. -/
theorem getCommentsForTweet_never_throws_witness :
    (getCommentsForTweet offlinePage sampleEnv "https://twitter.com/alice/status/1"
        freshBot).1 = []
    ∧ (getCommentsForTweet repliesPage sampleEnv "https://twitter.com/alice/status/1"
        freshBot).1
      = [{ id := "reply_1700000000000_1", author := "@bob", text := "nice post!",
           timestamp := "2024-01-01T00:00:00.000Z" }] :=
  ⟨(getCommentsForTweet_never_throws offlinePage sampleEnv
      "https://twitter.com/alice/status/1" freshBot).2.1
      (fun _ _ => ⟨"net::ERR_INTERNET_DISCONNECTED", rfl⟩),
   (congrArg Prod.fst
      ((getCommentsForTweet_never_throws repliesPage sampleEnv
        "https://twitter.com/alice/status/1" freshBot).2.2.2.1
        freshBot (waitForTimeout repliesPage 3000 freshBot).2 sampleDom
        (waitForTimeout repliesPage 3000 freshBot).2 rfl rfl rfl)).trans
      (by decide)⟩

/-- Witness for C7, amended: on a page whose waits resolve, a prompt that never goes away
times out after 60 polls and 300000 ms; a prompt that goes away after the third wait ends
the method at the third poll. -/
theorem waitFor2FACompletion_five_minutes_witness :
    (waitFor2FACompletion (promptPage 1000) freshBot).1
        = .error "2FA timeout - please complete within 5 minutes"
    ∧ (waitFor2FACompletion (promptPage 3) freshBot).1 = .ok true
    ∧ (waitFor2FACompletion (promptPage 3) freshBot).2.events
        = waitingRounds 2 ++ [Event.waitForTimeout 5000, Event.checkIfLoggedIn false,
            Event.detect2FA false]
    ∧ ∃ added, (waitFor2FACompletion (promptPage 1000) freshBot).2.events
          = freshBot.events ++ added
        ∧ pollCount added = 60 ∧ waitedMs added = 300000 :=
  ⟨rfl, rfl, by decide,
   ((waitFor2FACompletion_five_minutes (promptPage 1000) freshBot).1
      (fun s => ⟨s + 1, rfl⟩)).imp
     (fun _ h => ⟨h.1, h.2.2.2.2.1 rfl⟩)⟩

set_option maxRecDepth 100000 in
/-- Witness for C8: the result is `false` with no navigation possible, when the username
is entered but no password input is found, and when the 2FA prompt never goes away and
`waitFor2FACompletion` throws its timeout after 60 polls. -/
theorem loginWith2FA_never_throws_witness :
    loginWith2FA offlinePage "alice" "pw" freshBot = (false, { freshBot with page := 1 })
    ∧ (loginWith2FA passwordlessPage "alice" "pw" freshBot).1 = false
    ∧ (enterPassword passwordlessPage "pw" freshBot).1
        = .error "Could not find password input"
    ∧ (loginWith2FA (formPage 1000) "alice" "pw" freshBot).1 = false
    ∧ pollCount (loginWith2FA (formPage 1000) "alice" "pw" freshBot).2.events = 61 :=
  ⟨(loginWith2FA_never_throws offlinePage "alice" "pw" freshBot).1.1
      "net::ERR_INTERNET_DISCONNECTED" _ rfl,
   congrArg Prod.fst
     (((((((((((loginWith2FA_never_throws passwordlessPage "alice" "pw" freshBot).1.2
       _ rfl).2 _ rfl).2 _ rfl).2 _ rfl).2 _ rfl).2 _ _ rfl).2 _ rfl).2 _ _ rfl).1
       _ _ rfl)),
   rfl,
   congrArg Prod.fst
     ((((((((((((loginWith2FA_never_throws (formPage 1000) "alice" "pw" freshBot).1.2
       _ rfl).2 _ rfl).2 _ rfl).2 _ rfl).2 _ rfl).2 _ _ rfl).2 _ rfl).2 _ _ rfl).2
       _ _ rfl).1 _ _ rfl)),
   by decide⟩

/-- Witness for C9: no `apiKey` and no `instructions` gives the `apiKey` error, an
`apiKey` with empty `instructions` gives the `instructions` error, and no request is
made. -/
theorem generateReply_validates_credentials_witness :
    generateReply (failingNetwork 500) (some ⟨some "post"⟩) (some ⟨some "@bob", some "nice"⟩)
        none none freshNet
      = (.error "DeepSeek API key is required. Please enter your API key in the settings.",
         freshNet)
    ∧ generateReply (failingNetwork 500) (some ⟨some "post"⟩)
        (some ⟨some "@bob", some "nice"⟩) (some "sk-1") (some "") freshNet
      = (.error "AI instructions are required. Please enter instructions for how the AI should reply.",
         freshNet) :=
  ⟨(generateReply_validates_credentials (failingNetwork 500) (some ⟨some "post"⟩)
      (some ⟨some "@bob", some "nice"⟩) none none freshNet).1 rfl,
   (generateReply_validates_credentials (failingNetwork 500) (some ⟨some "post"⟩)
      (some ⟨some "@bob", some "nice"⟩) (some "sk-1") (some "") freshNet).2.1
      (by decide) (by decide)⟩

/-- Witness for C10: an API that answers 401, and one that answers 429, with a body that
is not JSON. -/
theorem generateReply_status_errors_witness :
    (generateReply (failingNetwork 401) (some ⟨some "post"⟩)
        (some ⟨some "@bob", some "nice"⟩) (some "sk-1") (some "be kind") freshNet).1
      = .error "Invalid DeepSeek API key. Please check your API key."
    ∧ (generateReply (failingNetwork 429) (some ⟨some "post"⟩)
        (some ⟨some "@bob", some "nice"⟩) (some "sk-1") (some "be kind") freshNet).1
      = .error "DeepSeek API rate limit exceeded. Please try again later." :=
  ⟨(generateReply_status_errors (failingNetwork 401) "post" "nice" "sk-1" "be kind"
      (some "@bob") freshNet _ 1 (by decide) (by decide) rfl rfl).1 rfl,
   (generateReply_status_errors (failingNetwork 429) "post" "nice" "sk-1" "be kind"
      (some "@bob") freshNet _ 1 (by decide) (by decide) rfl rfl).2 rfl⟩

/-! ## Theorems: the error message of a failed request -/

/-- The run of `generateReply` when `fetch` resolves to a response that is not OK: the
`catch` applied to the error of the `if (!response.ok)` branch. -/
theorem generateReply_not_ok {ν : Type} (network : Network ν)
    (postText commentText apiKey instructions : String) (author : Option String)
    (w : NetState ν) (response : ApiResponse) (n1 : ν)
    (hkey : apiKey ≠ "") (hinstr : instructions ≠ "")
    (hfetch : network.fetch
        (buildRequest apiKey (buildPrompt postText author commentText instructions)) w.net
        = (.ok response, n1))
    (hok : response.ok = false) :
    generateReply network (some ⟨some postText⟩) (some ⟨author, some commentText⟩)
        (some apiKey) (some instructions) w
      = generateReplyCatch (.error (apiErrorMessage response),
          { net := n1,
            trace := w.trace ++ [Call.fetch "https://api.deepseek.com/v1/chat/completions"] }) := by
  have hk : truthy (some apiKey) = true := by simpa [truthy] using hkey
  have hi : truthy (some instructions) = true := by simpa [truthy] using hinstr
  simp only [generateReply, hk, hi, generateReplyTry, Option.getD_some]
  simp [hfetch, hok]
  rfl

/-- For a status that is neither 401 nor 429 and a body that is not the JSON `null`, the
error of the `if (!response.ok)` branch is the message C11 claims. -/
theorem apiErrorMessage_eq_claimed (response : ApiResponse)
    (h401 : response.status ≠ 401) (h429 : response.status ≠ 429)
    (hbody : response.json ≠ .ok .null) :
    apiErrorMessage response = claimedApiMessage response := by
  unfold apiErrorMessage claimedApiMessage
  simp only [beq_iff_eq, h401, h429, if_false]
  rcases hj : response.json with e | body
  · simp [truthy]
  · cases body with
    | null => exact absurd hj hbody
    | object errorMessage content =>
      cases errorMessage with
      | none => simp [truthy]
      | some message =>
        by_cases hm : message = ""
        · simp [truthy, hm]
        · simp [truthy, hm]

/-- Counterexample to C11. The API answers 500 with the body
`{"error": {"message": "fetch failed"}}`: `generateReply` throws 'Failed to connect to
DeepSeek API. Check your internet connection.' and not 'DeepSeek API error: 500 fetch
failed'. The API answers 500 with the body `null`: it throws the `TypeError` of reading
`error` of `null` and not 'DeepSeek API error: 500 Unknown error'. -/
theorem generateReply_api_error_counterexample :
    ((generateReply (serverErrorNetwork (.object (some "fetch failed") none))
          (some ⟨some "post"⟩) (some ⟨some "@bob", some "nice"⟩) (some "sk-1")
          (some "be kind") freshNet).1
        = .error "Failed to connect to DeepSeek API. Check your internet connection."
      ∧ claimedApiMessage (serverErrorResponse (.object (some "fetch failed") none))
        = "DeepSeek API error: 500 fetch failed"
      ∧ (generateReply (serverErrorNetwork (.object (some "fetch failed") none))
          (some ⟨some "post"⟩) (some ⟨some "@bob", some "nice"⟩) (some "sk-1")
          (some "be kind") freshNet).1
        ≠ .error (claimedApiMessage (serverErrorResponse (.object (some "fetch failed") none))))
    ∧ ((generateReply (serverErrorNetwork .null)
          (some ⟨some "post"⟩) (some ⟨some "@bob", some "nice"⟩) (some "sk-1")
          (some "be kind") freshNet).1
        = .error "Cannot read properties of null (reading 'error')"
      ∧ claimedApiMessage (serverErrorResponse .null)
        = "DeepSeek API error: 500 Unknown error"
      ∧ (generateReply (serverErrorNetwork .null)
          (some ⟨some "post"⟩) (some ⟨some "@bob", some "nice"⟩) (some "sk-1")
          (some "be kind") freshNet).1
        ≠ .error (claimedApiMessage (serverErrorResponse .null))) := by
  refine ⟨⟨rfl, by decide, ?_⟩, ⟨rfl, by decide, ?_⟩⟩
  · intro h
    have h1 : (Except.error
        "Failed to connect to DeepSeek API. Check your internet connection." :
          Except String String)
        = .error "DeepSeek API error: 500 fetch failed" := h
    injection h1 with h2
    revert h2
    decide
  · intro h
    have h1 : (Except.error "Cannot read properties of null (reading 'error')" :
          Except String String)
        = .error "DeepSeek API error: 500 Unknown error" := h
    injection h1 with h2
    revert h2
    decide

/-- C11, amended. A call of `generateReply` with non-empty `apiKey` and `instructions` in
which `fetch` resolves to a response that is not OK, whose status is neither 401 nor 429
and whose body is not the JSON `null`. Let the message be 'DeepSeek API error: ' + status
+ ' ' + m, where m is the body's `error.message` when present and non-empty and
'Unknown error' otherwise (also when the body is not JSON). When the message does not
contain 'fetch', `generateReply` throws exactly it; when it does, the `catch` throws
'Failed to connect to DeepSeek API. Check your internet connection.' instead. -/
theorem generateReply_api_error_message {ν : Type} (network : Network ν)
    (postText commentText apiKey instructions : String) (author : Option String)
    (w : NetState ν) (response : ApiResponse) (n1 : ν)
    (hkey : apiKey ≠ "") (hinstr : instructions ≠ "")
    (hfetch : network.fetch
        (buildRequest apiKey (buildPrompt postText author commentText instructions)) w.net
        = (.ok response, n1))
    (hok : response.ok = false)
    (h401 : response.status ≠ 401) (h429 : response.status ≠ 429)
    (hbody : response.json ≠ .ok .null) :
    (includes (claimedApiMessage response) "fetch" = false →
      (generateReply network (some ⟨some postText⟩) (some ⟨author, some commentText⟩)
          (some apiKey) (some instructions) w).1
        = .error (claimedApiMessage response))
    ∧ (includes (claimedApiMessage response) "fetch" = true →
      (generateReply network (some ⟨some postText⟩) (some ⟨author, some commentText⟩)
          (some apiKey) (some instructions) w).1
        = .error "Failed to connect to DeepSeek API. Check your internet connection.") := by
  rw [generateReply_not_ok network postText commentText apiKey instructions author w
    response n1 hkey hinstr hfetch hok, apiErrorMessage_eq_claimed response h401 h429 hbody]
  constructor
  · intro h
    simp [generateReplyCatch, h]
  · intro h
    simp [generateReplyCatch, h]

/-- Witness for C11, amended: the API answers 500 with the body
`{"error": {"message": "Internal error"}}`, and with a body that is not JSON. -/
theorem generateReply_api_error_message_witness :
    (generateReply (serverErrorNetwork (.object (some "Internal error") none))
        (some ⟨some "post"⟩) (some ⟨some "@bob", some "nice"⟩) (some "sk-1")
        (some "be kind") freshNet).1
      = .error "DeepSeek API error: 500 Internal error"
    ∧ (generateReply (failingNetwork 503)
        (some ⟨some "post"⟩) (some ⟨some "@bob", some "nice"⟩) (some "sk-1")
        (some "be kind") freshNet).1
      = .error "DeepSeek API error: 503 Unknown error" :=
  ⟨((generateReply_api_error_message (serverErrorNetwork (.object (some "Internal error") none))
      "post" "nice" "sk-1" "be kind" (some "@bob") freshNet _ 1 (by decide) (by decide)
      rfl rfl (by decide) (by decide) (by simp [serverErrorResponse])).1 (by decide)).trans
      (congrArg Except.error (by decide)),
   ((generateReply_api_error_message (failingNetwork 503)
      "post" "nice" "sk-1" "be kind" (some "@bob") freshNet _ 1 (by decide) (by decide)
      rfl rfl (by decide) (by decide) (by simp)).1 (by decide)).trans
      (congrArg Except.error (by decide))⟩

/-! ## Theorems: the quotes around the reply -/

/-- Dropping a run on which the test holds, up to an element on which it does not. -/
theorem dropWhile_run {α : Type} (p : α → Bool) (run : List α) (a : α) (rest : List α)
    (hrun : ∀ c ∈ run, p c = true) (ha : p a = false) :
    (run ++ a :: rest).dropWhile p = a :: rest := by
  induction run with
  | nil => simp [List.dropWhile, ha]
  | cons c run ih =>
    have hc : p c = true := hrun c (List.mem_cons_self c run)
    simp only [List.cons_append, List.dropWhile, hc]
    exact ih (fun x hx => hrun x (List.mem_cons_of_mem c hx))

/-- A quote is not white space. -/
theorem isQuote_not_whitespace (q : Char) (hq : isQuote q = true) :
    isJsWhitespace q = false := by
  have h : q = '"' ∨ q = '\'' := by simpa [isQuote] using hq
  rcases h with h | h <;> subst h <;> decide

/-- The method `trim()` removes the white space around a text that starts and ends with a
quote, and nothing else. -/
theorem jsTrim_wrapped (w1 w2 s : String) (q q' : Char)
    (hw1 : ∀ c ∈ w1.toList, isJsWhitespace c = true)
    (hw2 : ∀ c ∈ w2.toList, isJsWhitespace c = true)
    (hq : isQuote q = true) (hq' : isQuote q' = true) :
    jsTrim (w1 ++ String.singleton q ++ s ++ String.singleton q' ++ w2)
      = String.singleton q ++ s ++ String.singleton q' := by
  have hdata : (w1 ++ String.singleton q ++ s ++ String.singleton q' ++ w2).toList
      = w1.toList ++ q :: (s.toList ++ q' :: w2.toList) := by
    simp [String.toList, String.data_append, String.singleton]
  have hfront := dropWhile_run isJsWhitespace w1.toList q (s.toList ++ q' :: w2.toList) hw1
    (isQuote_not_whitespace q hq)
  have hrev : (q :: (s.toList ++ q' :: w2.toList)).reverse
      = w2.toList.reverse ++ q' :: (s.toList.reverse ++ [q]) := by
    simp
  have hback := dropWhile_run isJsWhitespace w2.toList.reverse q' (s.toList.reverse ++ [q])
    (fun c hc => hw2 c (List.mem_reverse.mp hc)) (isQuote_not_whitespace q' hq')
  apply String.ext
  unfold jsTrim
  rw [hdata, hfront, hrev, hback]
  simp [String.data_append, String.singleton]

/-- The replacement of line 404 removes the quote at the start and the quote at the end of
a text wrapped in quotes. -/
theorem stripQuotes_wrapped (s : String) (q q' : Char)
    (hq : isQuote q = true) (hq' : isQuote q' = true) :
    stripQuotes (String.singleton q ++ s ++ String.singleton q') = s := by
  have hdata : (String.singleton q ++ s ++ String.singleton q').toList
      = q :: (s.toList ++ [q']) := by
    simp [String.toList, String.data_append, String.singleton]
  apply String.ext
  unfold stripQuotes
  simp only [hdata, hq, if_true, List.getLast?_concat, hq', List.dropLast_concat]
  rfl

/-- C12. Quotes wrapped around the AI response are removed: when `fetch` resolves to an OK
response whose first message has the content `w1 + q + s + q' + w2`, with `w1` and `w2`
(possibly empty) white space, `q` and `q'` each a single or a double quote and `s` any
string, `generateReply` returns exactly `s`. -/
theorem generateReply_strips_wrapping_quotes {ν : Type} (network : Network ν)
    (postText commentText apiKey instructions : String) (author : Option String)
    (w : NetState ν) (response : ApiResponse) (n1 : ν)
    (errorMessage : Option String) (w1 w2 s : String) (q q' : Char)
    (hkey : apiKey ≠ "") (hinstr : instructions ≠ "")
    (hfetch : network.fetch
        (buildRequest apiKey (buildPrompt postText author commentText instructions)) w.net
        = (.ok response, n1))
    (hok : response.ok = true)
    (hjson : response.json = .ok (.object errorMessage
        (some (.text (w1 ++ String.singleton q ++ s ++ String.singleton q' ++ w2)))))
    (hw1 : ∀ c ∈ w1.toList, isJsWhitespace c = true)
    (hw2 : ∀ c ∈ w2.toList, isJsWhitespace c = true)
    (hq : isQuote q = true) (hq' : isQuote q' = true) :
    (generateReply network (some ⟨some postText⟩) (some ⟨author, some commentText⟩)
        (some apiKey) (some instructions) w).1 = .ok s := by
  have hk : truthy (some apiKey) = true := by simpa [truthy] using hkey
  have hi : truthy (some instructions) = true := by simpa [truthy] using hinstr
  have hreply : replyOfResponse response = .ok s := by
    unfold replyOfResponse
    rw [hjson]
    simp only []
    rw [jsTrim_wrapped w1 w2 s q q' hw1 hw2 hq hq', stripQuotes_wrapped s q q' hq hq']
  simp only [generateReply, hk, hi, generateReplyTry, Option.getD_some]
  simp [hfetch, hok, hreply, generateReplyCatch]

/-- Witness for C12: the content is a reply in double quotes between a space and a line
break; the reply itself holds a quoted word. -/
theorem generateReply_strips_wrapping_quotes_witness :
    (generateReply (replyingNetwork " \"Thanks, 'bob'!\"\n")
        (some ⟨some "post"⟩) (some ⟨some "@bob", some "nice"⟩) (some "sk-1")
        (some "be kind") freshNet).1 = .ok "Thanks, 'bob'!" :=
  generateReply_strips_wrapping_quotes (replyingNetwork " \"Thanks, 'bob'!\"\n")
    "post" "nice" "sk-1" "be kind" (some "@bob") freshNet _ 1 none " " "\n" "Thanks, 'bob'!"
    '"' '"' (by decide) (by decide) rfl rfl rfl (by decide) (by decide) rfl rfl

/-! ## Theorems: the tweets of the profile -/

/-- The text the loop over the text selectors finds, when it is not empty, is the trimmed
inner text of the first selector whose element has an inner text that is not blank. -/
theorem findText_first (tweet : TweetElement) (selectors : List String)
    (h : findText tweet selectors ≠ "") :
    IsFirstText tweet selectors (findText tweet selectors) := by
  induction selectors with
  | nil => exact absurd rfl h
  | cons selector rest ih =>
    unfold findText at h ⊢
    cases hinner : tweet.innerText selector with
    | none =>
      rw [hinner] at h
      simp only [] at h ⊢
      rcases ih h with ⟨before, found, after, innerText, hsplit, hsome, hne, htext, hbefore⟩
      refine ⟨selector :: before, found, after, innerText, by rw [hsplit]; rfl, hsome, hne,
        htext, ?_⟩
      intro earlier hmem
      rcases List.mem_cons.mp hmem with heq | hmem
      · exact Or.inl (heq ▸ hinner)
      · exact hbefore earlier hmem
    | some innerText =>
      rw [hinner] at h
      simp only [] at h ⊢
      by_cases hcond : (innerText != "" && jsTrim innerText != "") = true
      · rw [if_pos hcond]
        have hne : jsTrim innerText ≠ "" := by
          simp only [Bool.and_eq_true, bne_iff_ne, ne_eq] at hcond
          exact hcond.2
        exact ⟨[], selector, rest, innerText, rfl, hinner, hne, rfl, by simp⟩
      · rw [if_neg hcond] at h ⊢
        have hblank : jsTrim innerText = "" := by
          simp only [Bool.and_eq_true, bne_iff_ne, ne_eq, not_and, not_not] at hcond
          by_cases hempty : innerText = ""
          · rw [hempty]; rfl
          · exact hcond hempty
        rcases ih h with ⟨before, found, after, inner, hsplit, hsome, hne, htext, hbefore⟩
        refine ⟨selector :: before, found, after, inner, by rw [hsplit]; rfl, hsome, hne,
          htext, ?_⟩
        intro earlier hmem
        rcases List.mem_cons.mp hmem with heq | hmem
        · exact Or.inr ⟨innerText, heq ▸ hinner, hblank⟩
        · exact hbefore earlier hmem

/-- A tweet the loop body pushes: its text is the first text found, longer than 10, and
starts with neither 'RT @' nor '@'. -/
theorem tweetOfElement_spec (env : Env) (element : TweetElement) (i : Nat) (tweet : Tweet)
    (h : tweetOfElement env element i = some tweet) :
    10 < jsLength tweet.text
    ∧ startsWith tweet.text "RT @" = false
    ∧ startsWith tweet.text "@" = false
    ∧ IsFirstText element profileTextSelectors tweet.text := by
  unfold tweetOfElement at h
  simp only [] at h
  split at h
  · cases h
  · rename_i hshort
    split at h
    · cases h
    · rename_i hstart
      split at h
      · rename_i hlong
        have htext : tweet.text = findText element profileTextSelectors := by
          cases h
          rfl
        simp only [Bool.or_eq_true, not_or, Bool.not_eq_true] at hstart
        simp only [Bool.and_eq_true, bne_iff_ne, ne_eq, decide_eq_true_eq] at hlong
        rw [htext]
        exact ⟨hlong.2, hstart.1, hstart.2, findText_first element profileTextSelectors hlong.1⟩
      · cases h

/-- Every tweet the extraction loop returns was there before or comes from one of the
elements it reads. -/
theorem tweetLoop_mem (env : Env) (maxCount : Nat) (elements : List TweetElement) (i : Nat)
    (tweets : List Tweet) (tweet : Tweet)
    (h : tweet ∈ tweetLoop env maxCount elements i tweets) :
    tweet ∈ tweets
    ∨ ∃ element j, element ∈ elements ∧ tweetOfElement env element j = some tweet := by
  induction elements generalizing i tweets with
  | nil => exact Or.inl h
  | cons element rest ih =>
    unfold tweetLoop at h
    cases hel : tweetOfElement env element i with
    | none =>
      rw [hel] at h
      rcases ih (i + 1) tweets h with hm | ⟨e, j, he, hj⟩
      · exact Or.inl hm
      · exact Or.inr ⟨e, j, List.mem_cons_of_mem element he, hj⟩
    | some pushed =>
      rw [hel] at h
      simp only [] at h
      have hnew : tweet ∈ tweets ++ [pushed] →
          tweet ∈ tweets
          ∨ ∃ e j, e ∈ element :: rest ∧ tweetOfElement env e j = some tweet := by
        intro hm
        rcases List.mem_append.mp hm with hm | hm
        · exact Or.inl hm
        · have heq : tweet = pushed := by simpa using hm
          exact Or.inr ⟨element, i, List.mem_cons_self element rest, heq ▸ hel⟩
      split at h
      · exact hnew h
      · rcases ih (i + 1) (tweets ++ [pushed]) h with hm | ⟨e, j, he, hj⟩
        · exact hnew hm
        · exact Or.inr ⟨e, j, List.mem_cons_of_mem element he, hj⟩

/-- The elements the loop over the tweet selectors of `getMyTweets` finds are those given
or those one of the selectors matches. -/
theorem findProfileElements_mem (dom : ReplyDom) (selectors : List String)
    (found : List TweetElement) (element : TweetElement)
    (h : element ∈ findProfileElements dom selectors found) :
    element ∈ found ∨ ∃ selector, element ∈ dom.querySelectorAll selector := by
  induction selectors generalizing found with
  | nil => exact Or.inl h
  | cons selector rest ih =>
    unfold findProfileElements at h
    simp only [] at h
    split at h
    · exact Or.inr ⟨selector, h⟩
    · rcases ih _ h with hm | hm
      · exact Or.inr ⟨selector, hm⟩
      · exact Or.inr hm

/-- Every tweet the in-page function of `getMyTweets` returns comes from an element of
the document, with the text found in it, longer than 10 and starting with neither 'RT @'
nor '@'. -/
theorem extractTweets_spec (env : Env) (maxCount : Nat) (dom : ReplyDom) (tweet : Tweet)
    (h : tweet ∈ extractTweets env maxCount dom) :
    10 < jsLength tweet.text
    ∧ startsWith tweet.text "RT @" = false
    ∧ startsWith tweet.text "@" = false
    ∧ ∃ selector element, element ∈ dom.querySelectorAll selector
        ∧ IsFirstText element profileTextSelectors tweet.text := by
  unfold extractTweets at h
  simp only [] at h
  split at h
  · simp at h
  · rcases tweetLoop_mem env maxCount _ 0 [] tweet h with hm | ⟨element, j, he, hj⟩
    · simp at hm
    · have hspec := tweetOfElement_spec env element j tweet hj
      rcases findProfileElements_mem dom _ [] element (List.mem_of_mem_take he) with hm | hm
      · simp at hm
      · rcases hm with ⟨selector, hsel⟩
        exact ⟨hspec.1, hspec.2.1, hspec.2.2.1, selector, element, hsel, hspec.2.2.2⟩

/-- C13. `getMyTweets` skips retweets and replies: whenever it returns, it returns what
its in-page function extracted from the document the page gave, and every tweet of the
list has a text that is the trimmed inner text of the first text selector that finds a
non-blank text in the tweet's element, has length greater than 10, and starts with neither
'RT @' nor '@'. -/
theorem getMyTweets_skips_retweets_and_replies {σ : Type} (P : Page σ ReplyDom) (env : Env)
    (count : Nat) (bot bot1 : Bot σ) (tweets : List Tweet)
    (h : getMyTweets P env count bot = (.ok tweets, bot1)) :
    ∃ dom s, (P.queryTweets s).1 = .ok dom
      ∧ tweets = (extractTweets env count dom).filter isValidTweet
      ∧ ∀ tweet ∈ tweets,
          10 < jsLength tweet.text
          ∧ startsWith tweet.text "RT @" = false
          ∧ startsWith tweet.text "@" = false
          ∧ ∃ selector element, element ∈ dom.querySelectorAll selector
              ∧ IsFirstText element profileTextSelectors tweet.text := by
  unfold getMyTweets at h
  cases hu : bot.username with
  | none =>
    rw [hu] at h
    simp at h
  | some username =>
    rw [hu] at h
    simp only [] at h
    split at h
    · simp at h
    · rcases andThen_ok _ _ _ _ h with ⟨_, b1, _, h1⟩
      rcases andThen_ok _ _ _ _ h1 with ⟨_, b2, _, h1b⟩
      rcases andThen_ok _ _ _ _ h1b with ⟨dom, b3, hquery, h2⟩
      simp only [Prod.mk.injEq, Except.ok.injEq] at h2
      refine ⟨dom, (scrollForTweets P b2).page, ?_, h2.1.symm, ?_⟩
      · unfold onPage at hquery
        simp only [Prod.mk.injEq] at hquery
        exact hquery.1
      · intro tweet hmem
        rw [← h2.1] at hmem
        exact extractTweets_spec env count dom tweet (List.mem_of_mem_filter hmem)

/-! ## Theorems: the replies of a tweet -/

/-- An author the loop over the username selectors finds begins with '@'. -/
theorem findUsername_at (tweet : TweetElement) (selectors : List String) (username : String)
    (h : findUsername tweet selectors = some username) : startsWith username "@" = true := by
  induction selectors with
  | nil => simp [findUsername] at h
  | cons selector rest ih =>
    unfold findUsername at h
    cases hfind : (tweet.hrefs selector).findSome? usernameOfHref with
    | none =>
      rw [hfind] at h
      exact ih h
    | some found =>
      rw [hfind] at h
      simp only [Option.some.injEq] at h
      subst h
      rcases List.exists_of_findSome?_eq_some hfind with ⟨href, _, hhref⟩
      unfold usernameOfHref at hhref
      split at hhref
      · cases hhref
      · split at hhref
        · split at hhref
          · split at hhref
            · simp only [Option.some.injEq] at hhref
              rw [← hhref]
              simp [startsWith, String.toList, String.data_append]
            · cases hhref
          · cases hhref
        · cases hhref

/-- A reply the loop body yields has a text of length at least 3 and an author that begins
with '@'. -/
theorem replyOfElement_spec (env : Env) (tweet : TweetElement) (i : Nat) (reply : Comment)
    (h : replyOfElement env tweet i = some reply) :
    3 ≤ jsLength reply.text ∧ startsWith reply.author "@" = true := by
  unfold replyOfElement at h
  simp only [] at h
  split at h
  · cases h
  · rename_i hshort
    simp only [Option.some.injEq] at h
    subst h
    simp only [Bool.or_eq_true, not_or, decide_eq_true_eq, not_lt] at hshort
    refine ⟨hshort.2, ?_⟩
    simp only []
    split
    · rename_i found hfound
      exact findUsername_at tweet _ found hfound
    · simp [startsWith, String.toList, String.data_append]

/-- The extraction loop from index `i` on: it appends to `replies` the replies of elements
of strictly increasing indices, all from `i` on, and stops at 20 replies. -/
theorem extractLoop_spec (env : Env) (elements : List TweetElement) (i : Nat)
    (replies : List Comment) :
    ∃ (indices : List Nat) (added : List Comment),
      extractLoop env elements i replies = replies ++ added
      ∧ indices.Pairwise (· < ·)
      ∧ (∀ j ∈ indices, i ≤ j ∧ j < i + elements.length)
      ∧ added.map some = indices.map (replyAt env elements i)
      ∧ (replies ++ added).length ≤ max replies.length 20 := by
  induction elements generalizing i replies with
  | nil =>
    exact ⟨[], [], by simp [extractLoop], List.Pairwise.nil, by simp, rfl, by simp⟩
  | cons element rest ih =>
    unfold extractLoop
    by_cases hroom : replies.length < 20
    · rw [if_pos hroom]
      have hshift : ∀ indices : List Nat, (∀ j ∈ indices, i + 1 ≤ j ∧ j < i + 1 + rest.length) →
          indices.map (replyAt env rest (i + 1))
            = indices.map (replyAt env (element :: rest) i) := by
        intro indices hbound
        apply List.map_congr_left
        intro j hj
        have hle := (hbound j hj).1
        have hsub : j - i = (j - (i + 1)) + 1 := by omega
        simp only [replyAt, hsub, List.getElem?_cons_succ]
      cases hel : replyOfElement env element i with
      | none =>
        simp only []
        rcases ih (i + 1) replies with ⟨indices, added, hrun, hsorted, hbound, hmap, hlen⟩
        refine ⟨indices, added, hrun, hsorted, ?_, ?_, hlen⟩
        · intro j hj
          have := hbound j hj
          simp only [List.length_cons]
          omega
        · rw [hmap, hshift indices hbound]
      | some reply =>
        simp only []
        rcases ih (i + 1) (replies ++ [reply]) with
          ⟨indices, added, hrun, hsorted, hbound, hmap, hlen⟩
        refine ⟨i :: indices, reply :: added, ?_, ?_, ?_, ?_, ?_⟩
        · rw [hrun, List.append_assoc]
          rfl
        · rw [List.pairwise_cons]
          refine ⟨?_, hsorted⟩
          intro j hj
          have := (hbound j hj).1
          omega
        · intro j hj
          simp only [List.length_cons]
          rcases List.mem_cons.mp hj with heq | hmem
          · omega
          · have := hbound j hmem
            omega
        · simp only [List.map_cons]
          rw [hmap, hshift indices hbound]
          congr 1
          simp [replyAt, hel]
        · have hlen1 : (replies ++ [reply] ++ added).length
              = (replies ++ reply :: added).length := by simp
          rw [← hlen1]
          have hmax : max (replies ++ [reply]).length 20 = 20 := by
            simp only [List.length_append, List.length_singleton]
            omega
          rw [hmax] at hlen
          exact le_trans hlen (le_max_right _ _)
    · rw [if_neg hroom]
      exact ⟨[], [], by simp, List.Pairwise.nil, by simp, rfl, by simp⟩

/-- Every reply the extraction loop returns was there before or is the reply of one of
the elements. -/
theorem extractLoop_mem (env : Env) (elements : List TweetElement) (i : Nat)
    (replies : List Comment) (reply : Comment)
    (h : reply ∈ extractLoop env elements i replies) :
    reply ∈ replies ∨ ∃ element j, replyOfElement env element j = some reply := by
  induction elements generalizing i replies with
  | nil => exact Or.inl h
  | cons element rest ih =>
    unfold extractLoop at h
    split at h
    · cases hel : replyOfElement env element i with
      | none =>
        rw [hel] at h
        exact ih (i + 1) replies h
      | some pushed =>
        rw [hel] at h
        rcases ih (i + 1) (replies ++ [pushed]) h with hm | hm
        · rcases List.mem_append.mp hm with hm | hm
          · exact Or.inl hm
          · have heq : reply = pushed := by simpa using hm
            exact Or.inr ⟨element, i, heq ▸ hel⟩
        · exact Or.inr hm
    · exact Or.inl h

/-- C14. `getCommentsForTweet` skips the original tweet and caps the result. What it
returns is the empty list or what its in-page function extracts from the document; and for
every document, so for every list of matched elements, the replies extracted number at
most 20, they are the replies of elements of strictly increasing indices, every index at
least 1 (the first matched element is never returned as a reply), and every reply has a
text of length at least 3 and an author beginning with '@'. -/
theorem getCommentsForTweet_skips_original_and_caps {σ : Type} (P : Page σ ReplyDom)
    (env : Env) (tweetUrl : String) (bot : Bot σ) :
    ((getCommentsForTweet P env tweetUrl bot).1 = []
      ∨ ∃ dom s, (P.queryReplies s).1 = .ok dom
          ∧ (getCommentsForTweet P env tweetUrl bot).1 = extractReplies env dom)
    ∧ ∀ dom : ReplyDom,
        (extractReplies env dom).length ≤ 20
        ∧ (∃ indices : List Nat,
            indices.Pairwise (· < ·)
            ∧ (∀ j ∈ indices, 1 ≤ j ∧ j < (replyElements dom).length)
            ∧ (extractReplies env dom).map some
                = indices.map (replyAt env (replyElements dom) 0))
        ∧ ∀ reply ∈ extractReplies env dom,
            3 ≤ jsLength reply.text ∧ startsWith reply.author "@" = true := by
  constructor
  · unfold getCommentsForTweet getCommentsForTweetTry
    rcases hn : navigateToTweet P tweetUrl bot with ⟨r, bot1⟩
    rcases r with e | u
    · exact Or.inl rfl
    · simp only [andThen]
      rcases hc : waitForTweetContent P bot1 with ⟨rc, bot2⟩
      rcases rc with e | u
      · exact Or.inl rfl
      · simp only []
        rcases hq : onPage P.queryReplies (scrollForReplies P bot2) with ⟨r1, bot3⟩
        rcases r1 with e | dom
        · exact Or.inl rfl
        · refine Or.inr ⟨dom, (scrollForReplies P bot2).page, ?_, rfl⟩
          unfold onPage at hq
          simp only [Prod.mk.injEq] at hq
          exact hq.1
  · intro dom
    have hdef : extractReplies env dom
        = if (replyElements dom).length ≤ 1 then []
          else extractLoop env ((replyElements dom).drop 1) 1 [] := rfl
    by_cases hfew : (replyElements dom).length ≤ 1
    · rw [hdef, if_pos hfew]
      exact ⟨by simp, ⟨[], List.Pairwise.nil, by simp, rfl⟩, by simp⟩
    · rw [hdef, if_neg hfew]
      rcases extractLoop_spec env ((replyElements dom).drop 1) 1 [] with
        ⟨indices, added, hrun, hsorted, hbound, hmap, hlen⟩
      rw [hrun]
      simp only [List.nil_append] at hlen ⊢
      refine ⟨by simpa using hlen, ⟨indices, hsorted, ?_, ?_⟩, ?_⟩
      · intro j hj
        have := hbound j hj
        simp only [List.length_drop] at this
        omega
      · rw [hmap]
        apply List.map_congr_left
        intro j hj
        have hle := (hbound j hj).1
        have hidx : 1 + (j - 1) = j := by omega
        simp only [replyAt, List.getElem?_drop, hidx, Nat.sub_zero]
      · intro reply hmem
        have hmem1 : reply ∈ extractLoop env ((replyElements dom).drop 1) 1 [] := by
          rw [hrun]
          simpa using hmem
        rcases extractLoop_mem env _ 1 [] reply hmem1 with hm | ⟨element, j, hj⟩
        · simp at hm
        · exact replyOfElement_spec env element j reply hj

/-! ## Witnesses: tweets and replies -/

/-- Witness for C13: of a retweet, a reply, a short text and a tweet, `getMyTweets` returns
the tweet alone, with the text the second text selector found, trimmed. -/
theorem getMyTweets_skips_retweets_and_replies_witness :
    (getMyTweets profilePage sampleEnv 5 namedBot).1
      = .ok [firstRealTweet]
    ∧ ∃ dom s, (profilePage.queryTweets s).1 = .ok dom
        ∧ [firstRealTweet]
            = (extractTweets sampleEnv 5 dom).filter isValidTweet
        ∧ ∀ tweet ∈ [firstRealTweet],
            10 < jsLength tweet.text
            ∧ startsWith tweet.text "RT @" = false
            ∧ startsWith tweet.text "@" = false
            ∧ ∃ selector element, element ∈ dom.querySelectorAll selector
                ∧ IsFirstText element profileTextSelectors tweet.text :=
  ⟨rfl,
   getMyTweets_skips_retweets_and_replies profilePage sampleEnv 5 namedBot
     (getMyTweets profilePage sampleEnv 5 namedBot).2 _ rfl⟩

/-- Witness for C14: of the original tweet and 24 replies, 20 replies are returned; of the
original tweet and one reply, the reply alone. -/
theorem getCommentsForTweet_skips_original_and_caps_witness :
    (extractReplies sampleEnv crowdedDom).length = 20
    ∧ (extractReplies sampleEnv crowdedDom).length ≤ 20
    ∧ extractReplies sampleEnv sampleDom
        = [{ id := "reply_1700000000000_1", author := "@bob", text := "nice post!",
             timestamp := "2024-01-01T00:00:00.000Z" }] :=
  ⟨by decide,
   ((getCommentsForTweet_skips_original_and_caps repliesPage sampleEnv
      "https://twitter.com/alice/status/1" freshBot).2 crowdedDom).1,
   by decide⟩

end XScraper
